import Mathlib

/-!
Verification of the Phobos LRS device-worker module (src/lrs/lrs_device.c)
against its natural-language specification.

The C code is shallowly embedded: each C function that a claim mentions is
translated to a pure Lean function over explicit state records; results of
external calls (library adapter, filesystem adapter, DSS) are passed in as
environment records, and the side effects of an operation are recorded as an
explicit trace of events.  Machine integers are modelled as Int (errno-style
return codes) and Nat (sizes and counts).
-/

set_option linter.unusedVariables false

namespace Phobos

/-- POSIX timespec: seconds and nanoseconds, both as mathematical integers.
The normalized predicate below captures the representation invariant that
tv_nsec lies in the interval from 0 inclusive to one billion exclusive. -/
structure Timespec where
  tv_sec : Int
  tv_nsec : Int
deriving DecidableEq, Repr

/-- Total number of nanoseconds represented by a timespec. -/
def Timespec.toNanos (t : Timespec) : Int :=
  t.tv_sec * 1000000000 + t.tv_nsec

/-- Representation invariant of a normalized timespec. -/
def Timespec.normalized (t : Timespec) : Prop :=
  0 ≤ t.tv_nsec ∧ t.tv_nsec < 1000000000

instance (t : Timespec) : Decidable t.normalized := by
  unfold Timespec.normalized; infer_instance

/-- Embeds is_older_or_equal of lrs_device.c: true when a is older than or
equal to b, by lexicographic comparison of the two fields. -/
def is_older_or_equal (a b : Timespec) : Bool :=
  if a.tv_sec > b.tv_sec ∨ (a.tv_sec = b.tv_sec ∧ a.tv_nsec > b.tv_nsec) then
    false
  else
    true

/-- Modelled from the spec: add_timespec is declared in the common header in
src with the contract that it computes the sum of its arguments and keeps the
nanosecond field below one billion; the implementation file is absent from
src, so the function is modelled as normalized addition with carry. -/
def add_timespec (a b : Timespec) : Timespec :=
  if 1000000000 ≤ a.tv_nsec + b.tv_nsec then
    ⟨a.tv_sec + b.tv_sec + 1, a.tv_nsec + b.tv_nsec - 1000000000⟩
  else
    ⟨a.tv_sec + b.tv_sec, a.tv_nsec + b.tv_nsec⟩

/-- Modelled from the spec: diff_timespec is declared in the common header in
src with the contract that it computes a minus b assuming a is at least b; the
implementation file is absent from src, so it is modelled as normalized
subtraction with borrow. -/
def diff_timespec (a b : Timespec) : Timespec :=
  if a.tv_nsec < b.tv_nsec then
    ⟨a.tv_sec - b.tv_sec - 1, a.tv_nsec + 1000000000 - b.tv_nsec⟩
  else
    ⟨a.tv_sec - b.tv_sec, a.tv_nsec - b.tv_nsec⟩

/-- Modelled from the spec: cmp_timespec is declared in the common header in
src with the contract that it returns 0 when a equals b, -1 when a is smaller
and 1 when a is larger; the implementation file is absent from src, so it is
modelled as the lexicographic comparison of the two fields. -/
def cmp_timespec (a b : Timespec) : Int :=
  if a.tv_sec < b.tv_sec then -1
  else if a.tv_sec > b.tv_sec then 1
  else if a.tv_nsec < b.tv_nsec then -1
  else if a.tv_nsec > b.tv_nsec then 1
  else 0

/-- Embeds the MINSLEEP constant of lrs_device.c: 10 milliseconds. -/
def MINSLEEP : Timespec := ⟨0, 10000000⟩

/-- Embeds is_past of lrs_device.c in the case where the clock read succeeds:
the current time is passed explicitly. -/
def is_past (t : Timespec) (now : Timespec) : Bool :=
  is_older_or_equal t now

/-- Sync thresholds carried by the device handle (struct lrs_dev_hdl). -/
structure SyncThresholds where
  sync_time_ms : Timespec
  sync_nb_req : Nat
  sync_wsize_kb : Nat
deriving DecidableEq, Repr

/-- Embeds struct sync_params: the length of the tosync array, the arrival
time of the oldest pending release and the cumulative written size. -/
structure SyncParams where
  tosync_len : Nat
  oldest_tosync : Timespec
  tosync_size : Nat
deriving DecidableEq, Repr

/-- Embeds check_needs_sync of lrs_device.c.  The value assigned to the
ld_needs_sync flag is computed from the pending-sync state, the global
running flag of the daemon, the stopping state of the device thread, the
last client release return code, and the current time. -/
def check_needs_sync (h : SyncThresholds) (sp : SyncParams) (running : Bool)
    (stopping : Bool) (last_client_rc : Int) (now : Timespec) : Bool :=
  let needs := decide (0 < sp.tosync_len) &&
      (decide (h.sync_nb_req ≤ sp.tosync_len) ||
       is_past (add_timespec sp.oldest_tosync h.sync_time_ms) now ||
       decide (h.sync_wsize_kb ≤ sp.tosync_size))
  let needs := needs || (!running && decide (0 < sp.tosync_len))
  let needs := needs || (stopping && decide (0 < sp.tosync_len))
  needs || decide (last_client_rc ≠ 0)

/-- Embeds compute_wakeup_date of lrs_device.c in the case where the clock
read succeeds.  When the oldest pending release time is unset (both fields
zero) the wakeup date is now plus the sync time; otherwise it is the oldest
pending release time plus the sync time, floored at now plus MINSLEEP. -/
def compute_wakeup_date (oldest_tosync sync_time_ms now : Timespec) :
    Timespec :=
  if oldest_tosync.tv_sec = 0 ∧ oldest_tosync.tv_nsec = 0 then
    add_timespec now sync_time_ms
  else if cmp_timespec
      (diff_timespec (add_timespec oldest_tosync sync_time_ms) now)
      MINSLEEP = -1 then
    add_timespec MINSLEEP now
  else
    add_timespec oldest_tosync sync_time_ms

/- Media model (struct media_info restricted to the fields the device worker
touches) and the DSS stats update of the sync path. -/

/-- Filesystem status of a medium (enum fs_status). -/
inductive FsStatus
  | blank
  | empty
  | used
  | full
deriving DecidableEq, Repr

/-- Administrative status of a resource (enum rsc_adm_status). -/
inductive AdmStatus
  | locked
  | unlocked
  | failed
deriving DecidableEq, Repr

/-- Usage statistics of a medium (struct media_stats restricted to the
fields updated by the device worker). -/
structure MediaStats where
  nb_obj : Int
  logc_spc_used : Nat
  phys_spc_used : Nat
  phys_spc_free : Nat
deriving DecidableEq, Repr

/-- Medium state (struct media_info restricted to the fields the device
worker reads and writes); the name identifies the medium. -/
structure MediaInfo where
  name : Nat
  fs_status : FsStatus
  adm_status : AdmStatus
  stats : MediaStats
deriving DecidableEq, Repr

/-- Field mask passed to dss_media_set (the fields bitmask of
lrs_dev_media_update). -/
structure MediaFields where
  fs_status : Bool
  adm_status : Bool
  phys_spc_used : Bool
  phys_spc_free : Bool
  nb_obj_add : Bool
  logc_spc_used_add : Bool
deriving DecidableEq, Repr

/-- The empty field mask. -/
def MediaFields.zero : MediaFields := ⟨false, false, false, false, false, false⟩

/-- Result of the df query on a mounted filesystem (struct ldm_fs_space
restricted to the two size fields). -/
structure FsSpace where
  spc_used : Nat
  spc_avail : Nat
deriving DecidableEq, Repr

/-- External-call results consumed by lrs_dev_media_update: the filesystem
adapter lookup, the df query and the DSS media set. -/
structure MediaUpdateEnv where
  get_fs_adapter_rc : Int
  df_rc : Int
  df_space : FsSpace
  dss_media_set_rc : Int
deriving DecidableEq, Repr

/-- Result of lrs_dev_media_update: the media record as passed to the DSS
write, the field mask of that write, and the returned error code. -/
structure MediaUpdateResult where
  media : MediaInfo
  fields : MediaFields
  rc : Int
deriving DecidableEq, Repr

/-- Embeds lrs_dev_media_update of lrs_device.c: updates the media stats and
status in memory from the df result and the sync return code, then pushes
the new state to the DSS with the accumulated field mask. -/
def lrs_dev_media_update (env : MediaUpdateEnv) (m0 : MediaInfo)
    (size_written : Nat) (media_rc : Int) (nb_new_obj : Int) :
    MediaUpdateResult :=
  let step1 : MediaInfo × MediaFields :=
    if m0.fs_status = FsStatus.empty ∧ media_rc = 0 then
      ({ m0 with fs_status := FsStatus.used },
       { MediaFields.zero with fs_status := true })
    else
      (m0, MediaFields.zero)
  let m := step1.1
  let fields := step1.2
  let step2 : MediaInfo × MediaFields × Int :=
    if env.get_fs_adapter_rc ≠ 0 then
      ({ m with adm_status := AdmStatus.failed },
       { fields with adm_status := true }, env.get_fs_adapter_rc)
    else if env.df_rc ≠ 0 then
      ({ m with adm_status := AdmStatus.failed },
       { fields with adm_status := true }, env.df_rc)
    else
      let m2 := { m with stats :=
        { m.stats with phys_spc_used := env.df_space.spc_used,
                       phys_spc_free := env.df_space.spc_avail } }
      let fields2 := { fields with phys_spc_used := true,
                                   phys_spc_free := true }
      if m2.stats.phys_spc_free = 0 then
        ({ m2 with fs_status := FsStatus.full },
         { fields2 with fs_status := true }, 0)
      else
        (m2, fields2, 0)
  let m := step2.1
  let fields := step2.2.1
  let rc := step2.2.2
  let step3 : MediaInfo × MediaFields :=
    if media_rc ≠ 0 then
      ({ m with adm_status := AdmStatus.failed },
       { fields with adm_status := true })
    else
      let s1 : MediaInfo × MediaFields :=
        if nb_new_obj ≠ 0 then
          ({ m with stats := { m.stats with nb_obj := nb_new_obj } },
           { fields with nb_obj_add := true })
        else
          (m, fields)
      if size_written ≠ 0 then
        ({ s1.1 with stats := { s1.1.stats with logc_spc_used :=
            size_written } },
         { s1.2 with logc_spc_used_add := true })
      else
        s1
  let rc := if env.dss_media_set_rc ≠ 0 then
      (if rc ≠ 0 then rc else env.dss_media_set_rc)
    else rc
  ⟨step3.1, step3.2, rc⟩

/-- Device state consumed by the sync tick (the fields of struct lrs_dev
that dev_sync reads). -/
structure SyncDev where
  media : MediaInfo
  last_client_rc : Int
  tosync_size : Nat
  tosync_len : Nat
deriving DecidableEq, Repr

/-- External-call results consumed by dev_sync: the filesystem medium sync,
the media update environment and the internal error code of the tosync-array
cleanup. -/
structure DevSyncEnv where
  medium_sync_rc : Int
  update_env : MediaUpdateEnv
  clean_rc : Int
deriving DecidableEq, Repr

/-- Result of a sync tick: whether the physical medium sync was invoked, the
media update performed, and the returned error code. -/
structure DevSyncResult where
  medium_sync_called : Bool
  update : MediaUpdateResult
  rc : Int
deriving DecidableEq, Repr

/-- Embeds dev_sync of lrs_device.c: calls medium_sync only when the last
client release return code is zero (otherwise that code becomes the tick
error), updates the media in the DSS, resets the last client code, and
drains the tosync array with the accumulated error code. -/
def dev_sync (env : DevSyncEnv) (dev : SyncDev) : DevSyncResult :=
  let called := dev.last_client_rc = 0
  let rc := if dev.last_client_rc = 0 then env.medium_sync_rc
    else dev.last_client_rc
  let upd := lrs_dev_media_update env.update_env dev.media dev.tosync_size rc
    dev.tosync_len
  let rc := if upd.rc ≠ 0 then (if rc ≠ 0 then rc else upd.rc) else rc
  let rc := if env.clean_rc ≠ 0 then (if rc ≠ 0 then rc else env.clean_rc)
    else rc
  ⟨called, upd, rc⟩


/- Device operations.  Each operation of lrs_device.c is embedded as a pure
function from the device state and an environment of external-call results to
the new device state, a trace of events, and a return code. -/

/-- Operational status of a device (enum dev_op_status). -/
inductive OpStatus
  | empty
  | loaded
  | mounted
  | failed
deriving DecidableEq, Repr

/-- Errno-style constants used by the device worker. -/
def EBUSY : Int := 16

/-- Errno constant EINVAL. -/
def EINVAL : Int := 22

/-- Errno constant ENOSPC. -/
def ENOSPC : Int := 28

/-- Observable events of a device operation: underlying library and
filesystem calls with their return codes, operational status updates, DSS
writes and lock operations, queue pushes and client responses. -/
inductive Event
  | fs_umount_call (rc : Int)
  | fs_mount_call (rc : Int)
  | fs_mounted_call (rc : Int)
  | fs_format_call (rc : Int)
  | lib_open_call (rc : Int)
  | media_lookup_call (rc : Int)
  | media_move_call (rc : Int)
  | lib_close_call (rc : Int)
  | set_op_status (s : OpStatus)
  | dss_set_medium_failed (rc : Int)
  | dss_release_medium (rc : Int)
  | dss_set_device_failed (rc : Int)
  | dss_release_device (rc : Int)
  | dss_media_set_fs_full (rc : Int)
  | dss_media_set_format (rc : Int)
  | push_retry_queue
  | push_req_queue
  | response_error (rc : Int)
  | response_format
  | response_rwalloc
  | sub_request_result (rc : Int)
deriving DecidableEq, Repr

/-- Device state (struct lrs_dev restricted to the fields the embedded
operations read and write). -/
structure DevState where
  op_status : OpStatus
  media : Option MediaInfo
  mnt_set : Bool
  ongoing_io : Bool
  thread_status : Int
deriving DecidableEq, Repr

/-- External-call results consumed by dev_umount: the filesystem adapter
lookup, the umount call and the internal code of the tosync cleanup. -/
structure UmountEnv where
  get_fsa_rc : Int
  umount_rc : Int
  clean_rc : Int
deriving DecidableEq, Repr

/-- Embeds dev_umount of lrs_device.c: unmounts the loaded medium but
leaves it loaded; on success the status becomes LOADED and the mount path is
cleared, and any error (including a cleanup error after a successful umount)
sets the status to FAILED. -/
def dev_umount (env : UmountEnv) (dev : DevState) :
    DevState × List Event × Int :=
  if env.get_fsa_rc ≠ 0 then
    ({ dev with op_status := OpStatus.failed },
     [Event.set_op_status OpStatus.failed], env.get_fsa_rc)
  else if env.umount_rc ≠ 0 then
    ({ dev with op_status := OpStatus.failed },
     [Event.fs_umount_call env.umount_rc,
      Event.set_op_status OpStatus.failed], env.umount_rc)
  else if env.clean_rc ≠ 0 then
    ({ dev with op_status := OpStatus.failed, mnt_set := false },
     [Event.fs_umount_call 0, Event.set_op_status OpStatus.loaded,
      Event.set_op_status OpStatus.failed], env.clean_rc)
  else
    ({ dev with op_status := OpStatus.loaded, mnt_set := false },
     [Event.fs_umount_call 0, Event.set_op_status OpStatus.loaded], 0)

/-- External-call results consumed by dev_unload: the library open, the
media move, the library close and the DSS medium lock release. -/
structure UnloadEnv where
  lib_open_rc : Int
  move_rc : Int
  lib_close_rc : Int
  release_rc : Int
deriving DecidableEq, Repr

/-- Embeds dev_unload of lrs_device.c: moves the medium back to the library,
sets the status to EMPTY and releases the DSS medium lock on success; any
library error sets the status to FAILED and keeps the lock. -/
def dev_unload (env : UnloadEnv) (dev : DevState) :
    DevState × List Event × Int :=
  if env.lib_open_rc ≠ 0 then
    ({ dev with op_status := OpStatus.failed },
     [Event.lib_open_call env.lib_open_rc,
      Event.set_op_status OpStatus.failed], env.lib_open_rc)
  else if env.move_rc ≠ 0 then
    ({ dev with op_status := OpStatus.failed },
     [Event.lib_open_call 0, Event.media_move_call env.move_rc,
      Event.lib_close_call env.lib_close_rc,
      Event.set_op_status OpStatus.failed], env.move_rc)
  else if env.lib_close_rc ≠ 0 then
    ({ dev with op_status := OpStatus.failed, media := none },
     [Event.lib_open_call 0, Event.media_move_call 0,
      Event.set_op_status OpStatus.empty,
      Event.lib_close_call env.lib_close_rc,
      Event.set_op_status OpStatus.failed], env.lib_close_rc)
  else
    ({ dev with op_status := OpStatus.empty, media := none },
     [Event.lib_open_call 0, Event.media_move_call 0,
      Event.set_op_status OpStatus.empty, Event.lib_close_call 0,
      Event.dss_release_medium env.release_rc], env.release_rc)

/-- External-call results consumed by fail_release_free_medium: the DSS
update that marks the medium FAILED and the DSS lock release. -/
structure FailReleaseEnv where
  set_failed_rc : Int
  release_rc : Int
deriving DecidableEq, Repr

/-- Embeds fail_release_free_medium of lrs_device.c: marks the medium FAILED
in the DSS and releases its lock only when that update succeeded; when the
update fails, the lock is kept and only the failed update is recorded. -/
def fail_release_free_medium (env : FailReleaseEnv) : List Event :=
  if env.set_failed_rc ≠ 0 then
    [Event.dss_set_medium_failed env.set_failed_rc]
  else
    [Event.dss_set_medium_failed 0, Event.dss_release_medium env.release_rc]

/-- External-call results consumed by dev_load: the library open, the medium
lookup, the location types of the medium and of the drive, the media move,
the library close, the environment of fail_release_free_medium, and the DSS
release used on a device-only failure. -/
structure LoadEnv where
  lib_open_rc : Int
  lookup_rc : Int
  medium_addr_is_drive : Bool
  dev_addr_is_drive : Bool
  move_rc : Int
  lib_close_rc : Int
  fail_env : FailReleaseEnv
  release_rc : Int
deriving DecidableEq, Repr

/-- Result of dev_load: the new device state, the three output flags, the
return code and the event trace. -/
structure LoadResult where
  dev : DevState
  failure_on_dev : Bool
  failure_on_medium : Bool
  can_retry : Bool
  rc : Int
  trace : List Event
deriving DecidableEq, Repr

/-- Embeds dev_load of lrs_device.c: looks the medium up in the library and
moves it into the drive.  A move refused with EINVAL between two drive
locations is reclassified as EBUSY with the can-retry flag set; other move
or lookup errors mark the medium FAILED through fail_release_free_medium. -/
def dev_load (env : LoadEnv) (dev : DevState) (medium : MediaInfo)
    (release_medium_on_dev_only_failure : Bool) : LoadResult :=
  if env.lib_open_rc ≠ 0 then
    { dev := { dev with op_status := OpStatus.failed },
      failure_on_dev := true, failure_on_medium := false, can_retry := false,
      rc := env.lib_open_rc,
      trace := [Event.lib_open_call env.lib_open_rc,
        Event.set_op_status OpStatus.failed] ++
        (if release_medium_on_dev_only_failure then
          [Event.dss_release_medium env.release_rc] else []) }
  else if env.lookup_rc ≠ 0 then
    { dev := if env.lib_close_rc ≠ 0 then
        { dev with op_status := OpStatus.failed } else dev,
      failure_on_dev := env.lib_close_rc ≠ 0, failure_on_medium := true,
      can_retry := false, rc := env.lookup_rc,
      trace := [Event.lib_open_call 0,
        Event.media_lookup_call env.lookup_rc] ++
        fail_release_free_medium env.fail_env ++
        [Event.lib_close_call env.lib_close_rc] ++
        (if env.lib_close_rc ≠ 0 then
          [Event.set_op_status OpStatus.failed] else []) }
  else if env.move_rc = -EINVAL ∧ env.medium_addr_is_drive ∧
      env.dev_addr_is_drive then
    { dev := if env.lib_close_rc ≠ 0 then
        { dev with op_status := OpStatus.failed } else dev,
      failure_on_dev := env.lib_close_rc ≠ 0, failure_on_medium := false,
      can_retry := true, rc := -EBUSY,
      trace := [Event.lib_open_call 0, Event.media_lookup_call 0,
        Event.media_move_call env.move_rc,
        Event.lib_close_call env.lib_close_rc] ++
        (if env.lib_close_rc ≠ 0 then
          [Event.set_op_status OpStatus.failed] else []) }
  else if env.move_rc ≠ 0 then
    { dev := { dev with op_status := OpStatus.failed },
      failure_on_dev := true, failure_on_medium := true,
      can_retry := false, rc := env.move_rc,
      trace := [Event.lib_open_call 0, Event.media_lookup_call 0,
        Event.media_move_call env.move_rc,
        Event.set_op_status OpStatus.failed] ++
        fail_release_free_medium env.fail_env ++
        [Event.lib_close_call env.lib_close_rc] ++
        (if env.lib_close_rc ≠ 0 then
          [Event.set_op_status OpStatus.failed] else []) }
  else if env.lib_close_rc ≠ 0 then
    { dev := { dev with
                 op_status := OpStatus.failed,
                 media := some medium },
      failure_on_dev := true, failure_on_medium := false,
      can_retry := false, rc := env.lib_close_rc,
      trace := [Event.lib_open_call 0, Event.media_lookup_call 0,
        Event.media_move_call 0, Event.set_op_status OpStatus.loaded,
        Event.lib_close_call env.lib_close_rc,
        Event.set_op_status OpStatus.failed] }
  else
    { dev := { dev with
                 op_status := OpStatus.loaded,
                 media := some medium },
      failure_on_dev := false, failure_on_medium := false,
      can_retry := false, rc := 0,
      trace := [Event.lib_open_call 0, Event.media_lookup_call 0,
        Event.media_move_call 0, Event.set_op_status OpStatus.loaded,
        Event.lib_close_call 0] }

/-- Embeds dev_empty of lrs_device.c: nothing to do on an EMPTY device,
otherwise umount when MOUNTED, then unload when LOADED; any other status is
an EINVAL error without a state change. -/
def dev_empty (uenv : UmountEnv) (ulenv : UnloadEnv) (dev : DevState) :
    DevState × List Event × Int :=
  if dev.op_status = OpStatus.empty then
    (dev, [], 0)
  else if dev.op_status = OpStatus.mounted then
    let r := dev_umount uenv dev
    if r.2.2 ≠ 0 then r
    else if r.1.op_status = OpStatus.loaded then
      let r2 := dev_unload ulenv r.1
      (r2.1, r.2.1 ++ r2.2.1, r2.2.2)
    else
      (r.1, r.2.1, -EINVAL)
  else if dev.op_status = OpStatus.loaded then
    dev_unload ulenv dev
  else
    (dev, [], -EINVAL)

/-- External-call results consumed by dev_mount: the filesystem adapter
lookup, the already-mounted probe, the mount point allocation and the mount
call. -/
structure MountEnv where
  get_fsa_rc : Int
  mounted_rc : Int
  mount_point_ok : Bool
  mount_rc : Int
deriving DecidableEq, Repr

/-- Embeds dev_mount of lrs_device.c: when the medium is already mounted the
status becomes MOUNTED at once; otherwise the filesystem is mounted and the
status becomes MOUNTED only on success.  Errors leave the status to the
caller. -/
def dev_mount (env : MountEnv) (dev : DevState) :
    DevState × List Event × Int :=
  if env.get_fsa_rc ≠ 0 then
    (dev, [], env.get_fsa_rc)
  else if env.mounted_rc = 0 then
    ({ dev with op_status := OpStatus.mounted, mnt_set := true },
     [Event.fs_mounted_call 0, Event.set_op_status OpStatus.mounted], 0)
  else if ¬ env.mount_point_ok then
    (dev, [Event.fs_mounted_call env.mounted_rc], -12)
  else if env.mount_rc ≠ 0 then
    (dev, [Event.fs_mounted_call env.mounted_rc,
      Event.fs_mount_call env.mount_rc], env.mount_rc)
  else
    ({ dev with op_status := OpStatus.mounted, mnt_set := true },
     [Event.fs_mounted_call env.mounted_rc, Event.fs_mount_call 0,
      Event.set_op_status OpStatus.mounted], 0)

/- Read-write allocation requests and their handler. -/

/-- Terminal status of a sub-request within its parent request. -/
inductive SubReqStatus
  | todo
  | done
  | error
  | cancel
deriving DecidableEq, Repr

/-- One entry of the rwalloc media array of a request container: the
sub-request status and the medium reserved for it, if still held. -/
structure RwallocMedium where
  status : SubReqStatus
  alloc_medium : Option MediaInfo
deriving DecidableEq, Repr

/-- Read-write allocation request container (struct req_container restricted
to the rwalloc parameters the device worker touches). -/
structure Reqc where
  is_write : Bool
  rwalloc_rc : Int
  media : List RwallocMedium
  n_med_ids : Nat
  n_required : Nat
deriving DecidableEq, Repr

/-- Sub-request pushed to a device (struct sub_request). -/
structure SubRequest where
  medium_index : Nat
  failure_on_medium : Bool
deriving DecidableEq, Repr

/-- Modelled from the spec: is_rwalloc_ended lives in the scheduler file,
absent from src.  A parent completes only when every sub-request has a
terminal status, so the request is ended when no entry is still TODO. -/
def is_rwalloc_ended (r : Reqc) : Bool :=
  r.media.all fun m => ¬ m.status = SubReqStatus.todo

/-- Updates one entry of the rwalloc media array. -/
def Reqc.setMedium (r : Reqc) (i : Nat) (v : RwallocMedium) : Reqc :=
  { r with media := r.media.set i v }

/-- Reads one entry of the rwalloc media array. -/
def Reqc.getMedium (r : Reqc) (i : Nat) : RwallocMedium :=
  r.media.getD i ⟨SubReqStatus.todo, none⟩

/-- Embeds rwalloc_can_be_requeued of lrs_device.c: write requests can
always be requeued; reads can be requeued unless the failure was on the
medium and no alternate media remain. -/
def rwalloc_can_be_requeued (r : Reqc) (sub : SubRequest) : Bool :=
  if r.is_write then true
  else if ¬ sub.failure_on_medium then true
  else decide (r.n_required < r.n_med_ids)

/-- Modelled from the spec: rwalloc_cancel_DONE_devices lives in the
scheduler file, absent from src.  On a fatal sub-request error the parent
cancels all sibling sub-requests that are still DONE. -/
def rwalloc_cancel_DONE_devices (r : Reqc) : Reqc :=
  { r with media := r.media.map fun m =>
      if m.status = SubReqStatus.done then
        { m with status := SubReqStatus.cancel }
      else m }

/-- External-call results consumed by handle_rwalloc_sub_request_result:
the return code of filling the response container. -/
structure RwResultEnv where
  fill_rc : Int
deriving DecidableEq, Repr

/-- Result of handle_rwalloc_sub_request_result: the updated request, the
sub-request, the requeued and canceled and ended flags, the emitted events
and the internal return code. -/
structure RwResult where
  reqc : Reqc
  sub : SubRequest
  requeued : Bool
  canceled : Bool
  ended : Bool
  trace : List Event
  rc : Int
deriving DecidableEq, Repr

/-- Embeds handle_rwalloc_sub_request_result of lrs_device.c: cancels the
sub-request when the parent already failed; on success fills the response
container and publishes the aggregated response when the parent is ended; on
failure requeues the sub-request to the retry queue when allowed, otherwise
records the first fatal error, emits an error response and cancels DONE
siblings. -/
def handle_rwalloc_sub_request_result (env : RwResultEnv)
    (sub : SubRequest) (reqc : Reqc) (sub_request_rc : Int) : RwResult :=
  let idx := sub.medium_index
  if reqc.rwalloc_rc ≠ 0 then
    let reqc := reqc.setMedium idx
      { status := SubReqStatus.cancel, alloc_medium := none }
    { reqc := reqc, sub := sub, requeued := false, canceled := true,
      ended := is_rwalloc_ended reqc, trace := [], rc := 0 }
  else if sub_request_rc = 0 ∧ env.fill_rc = 0 then
    let reqc := reqc.setMedium idx
      { status := SubReqStatus.done, alloc_medium := none }
    let ended := is_rwalloc_ended reqc
    { reqc := reqc, sub := sub, requeued := false, canceled := false,
      ended := ended,
      trace := if ended then [Event.response_rwalloc] else [], rc := 0 }
  else
    let src := if sub_request_rc = 0 then env.fill_rc else sub_request_rc
    if rwalloc_can_be_requeued reqc sub then
      let reqc := if sub.failure_on_medium then
          reqc.setMedium idx
            { reqc.getMedium idx with alloc_medium := none }
        else reqc
      { reqc := reqc, sub := sub, requeued := true, canceled := false,
        ended := false, trace := [Event.push_retry_queue],
        rc := if sub_request_rc = 0 then env.fill_rc else 0 }
    else
      let reqc := { reqc with rwalloc_rc := src }
      let reqc := reqc.setMedium idx
        { status := SubReqStatus.error, alloc_medium := none }
      let reqc := rwalloc_cancel_DONE_devices reqc
      { reqc := reqc, sub := sub, requeued := false, canceled := false,
        ended := is_rwalloc_ended reqc,
        trace := [Event.response_error src], rc := 0 }

/-- External-call results consumed by dev_handle_read_write: the empty, load
and mount environments, the fail-release environment of a mount failure, the
writability probe, the DSS FS_STATUS update of the read-only path and the
response-fill code. -/
structure RwHandlerEnv where
  uenv : UmountEnv
  ulenv : UnloadEnv
  lenv : LoadEnv
  menv : MountEnv
  mount_fail_env : FailReleaseEnv
  writable : Bool
  ro_dss_set_rc : Int
  rwenv : RwResultEnv
deriving DecidableEq, Repr

/-- Result of dev_handle_read_write: the new device state, whether the
pending sub-request slot still holds this sub-request, the updated request
and sub-request, the requeued flag, the event trace and the return code
handed to the main loop. -/
structure RwHandlerResult where
  dev : DevState
  sub_kept : Bool
  reqc : Reqc
  sub : SubRequest
  requeued : Bool
  trace : List Event
  rc : Int
deriving DecidableEq, Repr

/-- Tail of dev_handle_read_write from the alloc_result label: hands the
result to handle_rwalloc_sub_request_result, then clears the pending
sub-request slot and computes the return code of the handler. -/
def rw_alloc_result (env : RwHandlerEnv) (dev : DevState)
    (sub : SubRequest) (reqc : Reqc) (rc : Int) (io_ended : Bool)
    (failure_on_device : Bool) (tpre : List Event) : RwHandlerResult :=
  let r := handle_rwalloc_sub_request_result env.rwenv sub reqc rc
  let io_ended := io_ended || r.canceled
  let fod := failure_on_device || (r.rc ≠ 0 && !failure_on_device)
  let rc := if r.rc ≠ 0 && !failure_on_device then r.rc else rc
  let dev := if !io_ended && !r.requeued then
      { dev with ongoing_io := true } else dev
  { dev := dev, sub_kept := false, reqc := r.reqc, sub := r.sub,
    requeued := r.requeued,
    trace := tpre ++ [Event.sub_request_result rc] ++ r.trace,
    rc := if fod then rc else 0 }

/-- Part of dev_handle_read_write of lrs_device.c from the mount label: the
medium is mounted; on a mount error the device and the medium are both
failed; after a successful mount of a write target whose filesystem df
reports read-only, the medium is marked FULL in memory, the FS_STATUS field
is pushed to the DSS, and the sub-request result is ENOSPC; if that DSS push
fails the handler returns at once without touching the sub-request slot. -/
def rw_mount_tail (env : RwHandlerEnv) (dev : DevState) (sub : SubRequest)
    (reqc : Reqc) (tpre : List Event) : RwHandlerResult :=
  let rm := dev_mount env.menv dev
  if rm.2.2 ≠ 0 then
    let devF := { rm.1 with op_status := OpStatus.failed,
                            media := (none : Option MediaInfo) }
    rw_alloc_result env devF
      { sub with failure_on_medium := true } reqc rm.2.2 true true
      (tpre ++ rm.2.1 ++ [Event.set_op_status OpStatus.failed] ++
        fail_release_free_medium env.mount_fail_env)
  else if reqc.is_write && !env.writable then
    let dev2 := { rm.1 with media := rm.1.media.map fun m =>
        { m with fs_status := FsStatus.full } }
    let t := tpre ++ rm.2.1 ++
      [Event.dss_media_set_fs_full env.ro_dss_set_rc]
    if env.ro_dss_set_rc ≠ 0 then
      { dev := dev2, sub_kept := true, reqc := reqc,
        sub := { sub with failure_on_medium := true }, requeued := false,
        trace := t, rc := env.ro_dss_set_rc }
    else
      rw_alloc_result env dev2 { sub with failure_on_medium := true } reqc
        (-ENOSPC) true false t
  else
    rw_alloc_result env rm.1 sub reqc 0 false false (tpre ++ rm.2.1)

/-- Embeds dev_handle_read_write of lrs_device.c.  The requested medium is
used in place when already mounted; otherwise the device is emptied, the
medium loaded and mounted.  A busy drive-to-drive move leaves the
sub-request pending for a later retry.  After a successful mount of a write
target whose filesystem is read-only, the medium is marked FULL in memory
and in the DSS and the sub-request fails with ENOSPC. -/
def dev_handle_read_write (env : RwHandlerEnv) (dev : DevState)
    (sub : SubRequest) (reqc : Reqc) : RwHandlerResult :=
  if reqc.rwalloc_rc ≠ 0 then
    let reqc := reqc.setMedium sub.medium_index
      { status := SubReqStatus.cancel, alloc_medium := none }
    { dev := dev, sub_kept := false, reqc := reqc, sub := sub,
      requeued := false, trace := [], rc := 0 }
  else
    match (reqc.getMedium sub.medium_index).alloc_medium with
    | none =>
      if dev.op_status = OpStatus.mounted then
        rw_alloc_result env dev sub reqc 0 false false []
      else if dev.op_status = OpStatus.loaded then
        rw_mount_tail env dev sub reqc []
      else
        rw_alloc_result env dev
          { sub with failure_on_medium := true } reqc (-EINVAL) true false []
    | some medium =>
      let re := dev_empty env.uenv env.ulenv dev
      if re.2.2 ≠ 0 then
        rw_alloc_result env re.1 sub reqc re.2.2 true true re.2.1
      else
        let lr := dev_load env.lenv re.1 medium false
        if lr.rc = -EBUSY ∧ lr.can_retry then
          { dev := lr.dev, sub_kept := true, reqc := reqc, sub := sub,
            requeued := false, trace := re.2.1 ++ lr.trace, rc := 0 }
        else
          let sub := { sub with failure_on_medium := lr.failure_on_medium }
          let reqc := if lr.rc = 0 ∨ lr.failure_on_medium then
              reqc.setMedium sub.medium_index
                { reqc.getMedium sub.medium_index with alloc_medium := none }
            else reqc
          if lr.rc ≠ 0 then
            rw_alloc_result env lr.dev sub reqc lr.rc true lr.failure_on_dev
              (re.2.1 ++ lr.trace)
          else
            rw_mount_tail env lr.dev sub reqc (re.2.1 ++ lr.trace)

/- Format requests and their handler. -/

/-- Placeholder medium used to total Option projections that the C code
performs on pointers known to be non-null. -/
def dummyMedia : MediaInfo :=
  ⟨0, FsStatus.blank, AdmStatus.unlocked, ⟨0, 0, 0, 0⟩⟩

/-- External-call results consumed by dev_format: the filesystem format
call, the space it reports and the DSS media set. -/
structure FormatEnv where
  format_rc : Int
  format_space : FsSpace
  dss_set_rc : Int
deriving DecidableEq, Repr

/-- Embeds dev_format of lrs_device.c: formats the loaded medium, resets its
stats from the reported space, sets the filesystem status to EMPTY,
optionally unlocks the medium, and pushes the new state to the DSS. -/
def dev_format (env : FormatEnv) (medium : MediaInfo) (unlock : Bool) :
    MediaInfo × List Event × Int :=
  if env.format_rc ≠ 0 then
    (medium, [Event.fs_format_call env.format_rc], env.format_rc)
  else
    let m := { medium with
      fs_status := FsStatus.empty,
      stats := { nb_obj := 0, logc_spc_used := 0,
                 phys_spc_used := env.format_space.spc_used,
                 phys_spc_free := env.format_space.spc_avail } }
    let m := if unlock then { m with adm_status := AdmStatus.unlocked }
      else m
    (m, [Event.fs_format_call 0,
      Event.dss_media_set_format env.dss_set_rc], env.dss_set_rc)

/-- External-call results consumed by dev_handle_format. -/
structure FormatHandlerEnv where
  uenv : UmountEnv
  ulenv : UnloadEnv
  lenv : LoadEnv
  fenv : FormatEnv
deriving DecidableEq, Repr

/-- Result of dev_handle_format: the new device state, whether the pending
sub-request slot still holds this sub-request, the event trace and the
return code handed to the main loop. -/
structure FormatHandlerResult where
  dev : DevState
  sub_kept : Bool
  trace : List Event
  rc : Int
deriving DecidableEq, Repr

/-- Tail of dev_handle_format: formats the loaded medium and queues the
format response, or an error response when the format failed. -/
def format_tail (env : FormatHandlerEnv) (dev : DevState) (unlock : Bool)
    (tpre : List Event) : FormatHandlerResult :=
  let fr := dev_format env.fenv (dev.media.getD dummyMedia) unlock
  if fr.2.2 ≠ 0 then
    { dev := { dev with media := some fr.1 }, sub_kept := false,
      trace := tpre ++ fr.2.1 ++ [Event.response_error fr.2.2],
      rc := fr.2.2 }
  else
    { dev := { dev with media := some fr.1 }, sub_kept := false,
      trace := tpre ++ fr.2.1 ++ [Event.response_format], rc := 0 }

/-- Embeds dev_handle_format of lrs_device.c: skips loading when the target
medium is already loaded, otherwise empties the device and loads the target.
A busy drive-to-drive move leaves the sub-request pending for a later retry;
an empty failure requeues the whole request; a load failure queues an error
response, fatally for the thread only when the device itself failed. -/
def dev_handle_format (env : FormatHandlerEnv) (dev : DevState)
    (target : MediaInfo) (unlock : Bool) : FormatHandlerResult :=
  if dev.op_status = OpStatus.loaded ∧
      (dev.media.map MediaInfo.name) = some target.name then
    format_tail env dev unlock []
  else
    let re := dev_empty env.uenv env.ulenv dev
    if re.2.2 ≠ 0 then
      { dev := re.1, sub_kept := false,
        trace := re.2.1 ++ [Event.push_req_queue], rc := re.2.2 }
    else
      let lr := dev_load env.lenv re.1 target true
      if lr.rc = -EBUSY ∧ lr.can_retry then
        { dev := lr.dev, sub_kept := true, trace := re.2.1 ++ lr.trace,
          rc := 0 }
      else if lr.rc ≠ 0 then
        if lr.failure_on_dev then
          { dev := lr.dev, sub_kept := false,
            trace := re.2.1 ++ lr.trace ++ [Event.response_error lr.rc],
            rc := lr.rc }
        else
          { dev := lr.dev, sub_kept := false,
            trace := re.2.1 ++ lr.trace ++ [Event.response_error lr.rc],
            rc := 0 }
      else
        format_tail env lr.dev unlock (re.2.1 ++ lr.trace)

/- Device-thread termination. -/

/-- External-call results consumed by the thread-end path: the umount
environment, the fail-release environment for media, the DSS medium lock
release of the clean path, the first device lock release, the DSS update
marking the device FAILED, the device lock release after that update, and
the internal code of the tosync cleanup. -/
structure EndEnv where
  uenv : UmountEnv
  fail_env : FailReleaseEnv
  release_medium_rc : Int
  release_device_rc : Int
  update_adm_rc : Int
  release_device_failed_rc : Int
  clean_rc : Int
deriving DecidableEq, Repr

/-- Embeds dev_thread_end_mounted_medium of lrs_device.c: with no prior
error, unmounts the medium and keeps it loaded; on any error the medium is
marked FAILED in the DSS through fail_release_free_medium. -/
def dev_thread_end_mounted_medium (env : EndEnv) (dev : DevState) :
    DevState × List Event :=
  if ¬ dev.op_status = OpStatus.mounted then (dev, [])
  else
    let s1 : DevState × List Event :=
      if dev.thread_status = 0 then
        let r := dev_umount env.uenv dev
        (if r.2.2 ≠ 0 then { r.1 with thread_status := r.2.2 } else r.1,
         r.2.1)
      else (dev, [])
    if s1.1.thread_status ≠ 0 ∧ s1.1.media.isSome then
      ({ s1.1 with media := none },
       s1.2 ++ fail_release_free_medium env.fail_env)
    else (s1.1, s1.2)

/-- Embeds dev_thread_end_loaded_medium of lrs_device.c: with no prior
error, keeps the medium loaded and releases its DSS lock; on any error the
medium is marked FAILED in the DSS through fail_release_free_medium. -/
def dev_thread_end_loaded_medium (env : EndEnv) (dev : DevState) :
    DevState × List Event :=
  if ¬ dev.op_status = OpStatus.loaded then (dev, [])
  else
    let s1 : DevState × List Event :=
      if dev.thread_status = 0 then
        (if env.release_medium_rc ≠ 0 then
           { dev with thread_status := env.release_medium_rc }
         else { dev with media := none },
         [Event.dss_release_medium env.release_medium_rc])
      else (dev, [])
    if s1.1.thread_status ≠ 0 ∧ s1.1.media.isSome then
      ({ s1.1 with media := none },
       s1.2 ++ fail_release_free_medium env.fail_env)
    else
      ({ s1.1 with media := none }, s1.2)

/-- Embeds dev_thread_end_device of lrs_device.c: with no prior error,
releases the device DSS lock; on any error the tosync array is drained with
the error, the device becomes FAILED in memory and in the DSS, and its lock
is released only when that DSS update succeeded. -/
def dev_thread_end_device (env : EndEnv) (dev : DevState) :
    DevState × List Event :=
  let s1 : DevState × List Event :=
    if dev.thread_status = 0 then
      (if env.release_device_rc ≠ 0 then
         { dev with thread_status := env.release_device_rc }
       else dev,
       [Event.dss_release_device env.release_device_rc])
    else (dev, [])
  let s2 : DevState × List Event :=
    if s1.1.thread_status ≠ 0 then
      ({ s1.1 with op_status := OpStatus.failed },
       s1.2 ++ [Event.set_op_status OpStatus.failed,
         Event.dss_set_device_failed env.update_adm_rc] ++
       (if env.update_adm_rc = 0 then
          [Event.dss_release_device env.release_device_failed_rc] else []))
    else (s1.1, s1.2)
  ({ s2.1 with ongoing_io := false }, s2.2)

/-- Embeds dev_thread_end of lrs_device.c for a device with no pending
format sub-request (cancel_pending_format returns at once in that case):
the mounted medium is handled first, then the loaded medium, then the
device itself. -/
def dev_thread_end (env : EndEnv) (dev : DevState) :
    DevState × List Event :=
  let s1 := dev_thread_end_mounted_medium env dev
  let s2 := dev_thread_end_loaded_medium env s1.1
  let s3 := dev_thread_end_device env s2.1
  (s3.1, s1.2 ++ s2.2 ++ s3.2)

/- Trace predicates used by the claims. -/

/-- True on DSS medium lock release events. -/
def is_medium_release : Event → Bool
  | Event.dss_release_medium _ => true
  | _ => false

/-- True on successful DSS medium lock release events. -/
def is_medium_release_ok : Event → Bool
  | Event.dss_release_medium rc => decide (rc = 0)
  | _ => false

/-- True on DSS device lock release events. -/
def is_device_release : Event → Bool
  | Event.dss_release_device _ => true
  | _ => false

/-- True on successful DSS device lock release events. -/
def is_device_release_ok : Event → Bool
  | Event.dss_release_device rc => decide (rc = 0)
  | _ => false

/-- True on library media move events. -/
def is_move_call : Event → Bool
  | Event.media_move_call _ => true
  | _ => false

/-- True on filesystem umount events. -/
def is_umount_call : Event → Bool
  | Event.fs_umount_call _ => true
  | _ => false

/-- True on filesystem mount calls and already-mounted probes. -/
def is_mount_call : Event → Bool
  | Event.fs_mount_call _ => true
  | Event.fs_mounted_call _ => true
  | _ => false

/-- True on client response events. -/
def is_response : Event → Bool
  | Event.response_error _ => true
  | Event.response_format => true
  | Event.response_rwalloc => true
  | _ => false

/-- Checks that every operational status update to a status other than
FAILED occurs after the underlying call identified by the predicate has
returned. -/
def set_only_after_call (isCall : Event → Bool) : List Event → Bool
  | [] => true
  | Event.set_op_status s :: rest =>
      if s = OpStatus.failed then set_only_after_call isCall rest else false
  | e :: rest =>
      if isCall e then true else set_only_after_call isCall rest

/-- Checks that no event satisfying p occurs after an event satisfying q. -/
def no_p_after_q (p q : Event → Bool) : List Event → Bool
  | [] => true
  | e :: rest =>
      if q e then rest.all (fun x => !p x) && no_p_after_q p q rest
      else no_p_after_q p q rest

/- Release requests and the tosync-array cleanup. -/

/-- One entry of the tosync media array of a release request (struct
tosync_medium restricted to the fields the cleanup touches). -/
structure TosyncMedium where
  status : SubReqStatus
  client_rc : Int
  written_size : Nat
deriving DecidableEq, Repr

/-- Release parameters of a request container (struct release_params):
the first recorded error and the tosync media entries. -/
structure ReleaseParams where
  rc : Int
  tosync_media : List TosyncMedium
deriving DecidableEq, Repr

/-- Parent request store: release request containers indexed by an
identifier, modelling the shared req_container pointers. -/
def Store : Type := Nat → ReleaseParams

/-- Updates one parent request in the store. -/
def store_set (s : Store) (i : Nat) (v : ReleaseParams) : Store :=
  fun j => if j = i then v else s j

/-- Entry of the per-device tosync array: the parent request identifier and
the medium index within the parent. -/
structure TosyncSub where
  parent : Nat
  medium_index : Nat
deriving DecidableEq, Repr

/-- Response events emitted while draining the tosync array. -/
inductive RelEvent
  | error_resp (parent : Nat) (rc : Int)
  | release_resp (parent : Nat)
deriving DecidableEq, Repr

/-- Embeds is_request_tosync_ended of lrs_device.c: the release request is
ended when no tosync medium is still TODO. -/
def is_request_tosync_ended (p : ReleaseParams) : Bool :=
  p.tosync_media.all fun m => ¬ m.status = SubReqStatus.todo

/-- Placeholder tosync medium used to total list indexing the C code
performs on indices known to be in bounds. -/
def dummyTosync : TosyncMedium := ⟨SubReqStatus.todo, 0, 0⟩

/-- Sets the status of one tosync medium of a release request. -/
def set_tosync_status (p : ReleaseParams) (i : Nat) (st : SubReqStatus) :
    ReleaseParams :=
  let entry := { p.tosync_media.getD i dummyTosync with status := st }
  { p with tosync_media := p.tosync_media.set i entry }

/-- Embeds one iteration of the loop of clean_tosync_array of lrs_device.c:
with a zero code the entry becomes DONE and the release response is queued
once the parent is ended with no recorded error; with a non-zero code the
first entry to find the parent error still zero records it and queues the
single error response, and the entry becomes ERROR. -/
def clean_one (rcArg : Int) (store : Store) (sub : TosyncSub) :
    Store × List RelEvent :=
  let p := store sub.parent
  if rcArg = 0 then
    let p2 := set_tosync_status p sub.medium_index SubReqStatus.done
    (store_set store sub.parent p2,
     if is_request_tosync_ended p2 && decide (p2.rc = 0) then
       [RelEvent.release_resp sub.parent]
     else [])
  else
    let send := p.rc = 0
    let p1 := if p.rc = 0 then { p with rc := rcArg } else p
    let p2 := set_tosync_status p1 sub.medium_index SubReqStatus.error
    (store_set store sub.parent p2,
     (if send then [RelEvent.error_resp sub.parent rcArg] else []) ++
     (if is_request_tosync_ended p2 && decide (p2.rc = 0) then
        [RelEvent.release_resp sub.parent]
      else []))

/-- Runs clean_one over a list of tosync entries, accumulating events. -/
def clean_list (rcArg : Int) : List TosyncSub → Store → Store × List RelEvent
  | [], store => (store, [])
  | sub :: rest, store =>
    let s1 := clean_one rcArg store sub
    let s2 := clean_list rcArg rest s1.1
    (s2.1, s1.2 ++ s2.2)

/-- Pending-sync state of a device as drained by clean_tosync_array. -/
structure DevTosyncState where
  tosync_array : List TosyncSub
  tosync_size : Nat
  oldest_tosync : Timespec
  needs_sync : Bool
deriving DecidableEq, Repr

/-- Embeds clean_tosync_array of lrs_device.c: pops every entry from the
back of the tosync array and processes it with clean_one, then resets the
written size, the oldest pending time and the needs-sync flag. -/
def clean_tosync_array (rcArg : Int) (dev : DevTosyncState) (store : Store) :
    DevTosyncState × Store × List RelEvent :=
  let r := clean_list rcArg dev.tosync_array.reverse store
  (⟨[], 0, ⟨0, 0⟩, false⟩, r.1, r.2)

/-- Number of error responses emitted for a given parent request. -/
def count_error_resp (p : Nat) (evs : List RelEvent) : Nat :=
  evs.countP fun e => match e with
    | RelEvent.error_resp q _ => decide (q = p)
    | _ => false

/-- Mount environments under which dev_mount succeeds: the filesystem
adapter is found and either the medium is already mounted or the mount point
is built and the mount call succeeds. -/
def mount_ok (menv : MountEnv) : Prop :=
  menv.get_fsa_rc = 0 ∧
  (menv.mounted_rc = 0 ∨ (menv.mount_point_ok ∧ menv.mount_rc = 0))

instance (menv : MountEnv) : Decidable (mount_ok menv) := by
  unfold mount_ok; infer_instance

/-- Sample handler environment in which every external call succeeds but
the df of the mounted write target reports the filesystem read-only. -/
def roEnv : RwHandlerEnv :=
  ⟨⟨0, 0, 0⟩, ⟨0, 0, 0, 0⟩, ⟨0, 0, false, false, 0, 0, ⟨0, 0⟩, 0⟩,
   ⟨0, -1, true, 0⟩, ⟨0, 0⟩, false, 0, ⟨0⟩⟩

/-- Sample write target medium. -/
def roMedium : MediaInfo := ⟨1, FsStatus.used, AdmStatus.unlocked, ⟨0, 0, 0, 5⟩⟩

/-- Sample write allocation request holding the sample medium. -/
def roReqc : Reqc := ⟨true, 0, [⟨SubReqStatus.todo, some roMedium⟩], 1, 1⟩

/-- Sample sub-request pointing at the first medium of the request. -/
def roSub : SubRequest := ⟨0, false⟩

/-- Edges of the operational state machine of a device: EMPTY to LOADED by
load, LOADED to MOUNTED by mount, MOUNTED to LOADED by umount, LOADED to
EMPTY by unload, any state to FAILED on error, and staying in place. -/
def allowed_transition (a b : OpStatus) : Prop :=
  a = b ∨ (a = OpStatus.empty ∧ b = OpStatus.loaded) ∨
  (a = OpStatus.loaded ∧ b = OpStatus.mounted) ∨
  (a = OpStatus.mounted ∧ b = OpStatus.loaded) ∨
  (a = OpStatus.loaded ∧ b = OpStatus.empty) ∨
  b = OpStatus.failed

instance (a b : OpStatus) : Decidable (allowed_transition a b) := by
  unfold allowed_transition; infer_instance

/- Helper lemmas about the timespec model -/

theorem toNanos_add (a b : Timespec) :
    (add_timespec a b).toNanos = a.toNanos + b.toNanos := by
  unfold add_timespec Timespec.toNanos
  split_ifs <;> simp <;> ring

theorem toNanos_diff (a b : Timespec) :
    (diff_timespec a b).toNanos = a.toNanos - b.toNanos := by
  unfold diff_timespec Timespec.toNanos
  split_ifs <;> simp <;> ring

theorem is_older_or_equal_iff (a b : Timespec)
    (ha : a.normalized) (hb : b.normalized) :
    is_older_or_equal a b = true ↔ a.toNanos ≤ b.toNanos := by
  obtain ⟨ha1, ha2⟩ := ha
  obtain ⟨hb1, hb2⟩ := hb
  unfold is_older_or_equal Timespec.toNanos
  split_ifs with h <;> simp only [false_iff, true_iff] <;> omega

theorem add_normalized (a b : Timespec)
    (ha : a.normalized) (hb : b.normalized) :
    (add_timespec a b).normalized := by
  obtain ⟨ha1, ha2⟩ := ha
  obtain ⟨hb1, hb2⟩ := hb
  unfold add_timespec Timespec.normalized
  split_ifs <;> constructor <;> simp <;> omega

theorem diff_normalized (a b : Timespec)
    (ha : a.normalized) (hb : b.normalized) :
    (diff_timespec a b).normalized := by
  obtain ⟨ha1, ha2⟩ := ha
  obtain ⟨hb1, hb2⟩ := hb
  unfold diff_timespec Timespec.normalized
  split_ifs <;> constructor <;> simp <;> omega

theorem cmp_timespec_lt (a b : Timespec)
    (ha : a.normalized) (hb : b.normalized) :
    cmp_timespec a b = -1 ↔ a.toNanos < b.toNanos := by
  obtain ⟨ha1, ha2⟩ := ha
  obtain ⟨hb1, hb2⟩ := hb
  unfold cmp_timespec Timespec.toNanos
  split_ifs <;>
    first
      | (simp only [true_iff]; omega)
      | (constructor
         · intro hc; exact absurd hc (by decide)
         · intro hlt; exfalso; omega)

/-- C1: on every evaluation of the per-device sync policy, the needs-sync
flag is set to true if and only if: the pending list is non-empty and its
length reaches sync_nb_req, or the pending list is non-empty and now is at or
past the oldest pending release time plus sync_time_ms, or the pending list
is non-empty and its cumulative written size reaches sync_wsize_kb, or the
daemon is shutting down and the pending list is non-empty, or the device
worker is stopping and the pending list is non-empty, or the last client
release carried a non-zero error code. -/
theorem check_needs_sync_iff (h : SyncThresholds) (sp : SyncParams)
    (running stopping : Bool) (last_client_rc : Int) (now : Timespec)
    (h1 : sp.oldest_tosync.normalized) (h2 : h.sync_time_ms.normalized)
    (h3 : now.normalized) :
    check_needs_sync h sp running stopping last_client_rc now = true ↔
      ((0 < sp.tosync_len ∧ h.sync_nb_req ≤ sp.tosync_len) ∨
       (0 < sp.tosync_len ∧
        (add_timespec sp.oldest_tosync h.sync_time_ms).toNanos ≤
           now.toNanos) ∨
       (0 < sp.tosync_len ∧ h.sync_wsize_kb ≤ sp.tosync_size) ∨
       (running = false ∧ 0 < sp.tosync_len) ∨
       (stopping = true ∧ 0 < sp.tosync_len) ∨
       last_client_rc ≠ 0) := by
  have hpast :
      is_past (add_timespec sp.oldest_tosync h.sync_time_ms) now = true ↔
        (add_timespec sp.oldest_tosync h.sync_time_ms).toNanos ≤
          now.toNanos :=
    is_older_or_equal_iff _ _ (add_normalized _ _ h1 h2) h3
  unfold check_needs_sync
  simp only [Bool.or_eq_true, Bool.and_eq_true, Bool.not_eq_true',
    decide_eq_true_eq, is_past] at *
  rw [hpast]
  tauto

/-- C1 witness: the policy evaluated at a concrete pending state. -/
theorem check_needs_sync_iff_witness :
    (Timespec.mk 5 0).normalized ∧ (Timespec.mk 1 0).normalized ∧
    (Timespec.mk 100 0).normalized ∧
    (check_needs_sync ⟨⟨1, 0⟩, 2, 100⟩ ⟨3, ⟨5, 0⟩, 10⟩ true false 0
        ⟨100, 0⟩ = true ↔
      ((0 < 3 ∧ 2 ≤ 3) ∨
       (0 < 3 ∧ (add_timespec ⟨5, 0⟩ ⟨1, 0⟩).toNanos ≤
          (Timespec.mk 100 0).toNanos) ∨
       (0 < 3 ∧ 100 ≤ 10) ∨
       (true = false ∧ 0 < 3) ∨
       (false = true ∧ 0 < 3) ∨
       (0 : Int) ≠ 0)) :=
  ⟨by decide, by decide, by decide,
   check_needs_sync_iff ⟨⟨1, 0⟩, 2, 100⟩ ⟨3, ⟨5, 0⟩, 10⟩ true false 0
     ⟨100, 0⟩ (by decide) (by decide) (by decide)⟩

/-- C2 counterexample: when the pending-sync list is empty (oldest time
unset), the computed wakeup date is now plus the sync time, which differs
from the claimed maximum of now plus 10 ms and the oldest time plus the sync
time. -/
theorem compute_wakeup_date_counterexample :
    ¬ ((compute_wakeup_date ⟨0, 0⟩ ⟨3600, 0⟩ ⟨1000, 0⟩).toNanos =
        max ((Timespec.mk 1000 0).toNanos + MINSLEEP.toNanos)
          ((Timespec.mk 0 0).toNanos + (Timespec.mk 3600 0).toNanos)) := by
  decide

/-- C2 as amended: when the oldest pending release time is set (the pending
list is non-empty), the wakeup deadline equals the maximum of now plus 10 ms
and the oldest time plus the sync time, hence it is never earlier than now
plus 10 ms in that case; when the oldest time is unset (the pending list is
empty) the deadline is now plus the sync time, with no 10 ms floor. -/
theorem compute_wakeup_date_eq (oldest st now : Timespec)
    (h1 : oldest.normalized) (h2 : st.normalized) (h3 : now.normalized) :
    (compute_wakeup_date oldest st now).toNanos =
      if oldest.tv_sec = 0 ∧ oldest.tv_nsec = 0 then
        now.toNanos + st.toNanos
      else
        max (now.toNanos + MINSLEEP.toNanos)
          (oldest.toNanos + st.toNanos) := by
  have hmin : MINSLEEP.normalized := by decide
  have hminN : MINSLEEP.toNanos = 10000000 := by decide
  unfold compute_wakeup_date
  split_ifs with hunset hcmp
  · rw [toNanos_add]
  · have hlt :
        (diff_timespec (add_timespec oldest st) now).toNanos <
          MINSLEEP.toNanos :=
      (cmp_timespec_lt _ _
        (diff_normalized _ _ (add_normalized _ _ h1 h2) h3) hmin).mp hcmp
    rw [toNanos_diff, toNanos_add] at hlt
    rw [toNanos_add]
    rcases le_total (oldest.toNanos + st.toNanos)
        (now.toNanos + MINSLEEP.toNanos) with hle | hle
    · rw [max_eq_left hle]; omega
    · omega
  · have hge :
        ¬ (diff_timespec (add_timespec oldest st) now).toNanos <
            MINSLEEP.toNanos := by
      intro hc
      exact hcmp ((cmp_timespec_lt _ _
        (diff_normalized _ _ (add_normalized _ _ h1 h2) h3) hmin).mpr hc)
    rw [toNanos_diff, toNanos_add] at hge
    rw [toNanos_add]
    rcases le_total (oldest.toNanos + st.toNanos)
        (now.toNanos + MINSLEEP.toNanos) with hle | hle
    · rw [max_eq_left hle]; omega
    · rw [max_eq_right hle]

/-- C2 witness: the amended statement at a concrete non-empty pending list
whose oldest entry is old enough that the 10 ms floor applies. -/
theorem compute_wakeup_date_eq_witness :
    (Timespec.mk 5 0).normalized ∧ (Timespec.mk 60 0).normalized ∧
    (Timespec.mk 1000 0).normalized ∧
    ((compute_wakeup_date ⟨5, 0⟩ ⟨60, 0⟩ ⟨1000, 0⟩).toNanos =
      if (5 : Int) = 0 ∧ (0 : Int) = 0 then
        (Timespec.mk 1000 0).toNanos + (Timespec.mk 60 0).toNanos
      else
        max ((Timespec.mk 1000 0).toNanos + MINSLEEP.toNanos)
          ((Timespec.mk 5 0).toNanos + (Timespec.mk 60 0).toNanos)) :=
  ⟨by decide, by decide, by decide,
   compute_wakeup_date_eq ⟨5, 0⟩ ⟨60, 0⟩ ⟨1000, 0⟩
     (by decide) (by decide) (by decide)⟩

/-- C7: in the DSS media-stats update of the sync path, when the df query
succeeds and reports zero available physical space, the filesystem status is
set to FULL on the media record before the DSS write, so a zero
phys_spc_free in the written record implies that record carries fs_status
FULL, with the FS_STATUS field included in the update mask. -/
theorem lrs_dev_media_update_full (env : MediaUpdateEnv) (m0 : MediaInfo)
    (size_written : Nat) (media_rc : Int) (nb_new_obj : Int)
    (hfsa : env.get_fs_adapter_rc = 0) (hdf : env.df_rc = 0) :
    ((lrs_dev_media_update env m0 size_written media_rc
        nb_new_obj).media.stats.phys_spc_free = 0 →
      (lrs_dev_media_update env m0 size_written media_rc
        nb_new_obj).media.fs_status = FsStatus.full) ∧
    (env.df_space.spc_avail = 0 →
      (lrs_dev_media_update env m0 size_written media_rc
        nb_new_obj).media.fs_status = FsStatus.full ∧
      (lrs_dev_media_update env m0 size_written media_rc
        nb_new_obj).fields.fs_status = true) := by
  unfold lrs_dev_media_update
  simp only [hfsa, hdf]
  norm_num
  split_ifs <;> simp_all

/-- C7 witness: the update at a concrete medium whose df reports zero
available space. -/
theorem lrs_dev_media_update_full_witness :
    (0 : Int) = 0 ∧ (0 : Int) = 0 ∧
    (((lrs_dev_media_update ⟨0, 0, ⟨50, 0⟩, 0⟩
        ⟨7, FsStatus.used, AdmStatus.unlocked, ⟨3, 10, 40, 5⟩⟩ 10 0
        2).media.stats.phys_spc_free = 0 →
      (lrs_dev_media_update ⟨0, 0, ⟨50, 0⟩, 0⟩
        ⟨7, FsStatus.used, AdmStatus.unlocked, ⟨3, 10, 40, 5⟩⟩ 10 0
        2).media.fs_status = FsStatus.full) ∧
    ((FsSpace.mk 50 0).spc_avail = 0 →
      (lrs_dev_media_update ⟨0, 0, ⟨50, 0⟩, 0⟩
        ⟨7, FsStatus.used, AdmStatus.unlocked, ⟨3, 10, 40, 5⟩⟩ 10 0
        2).media.fs_status = FsStatus.full ∧
      (lrs_dev_media_update ⟨0, 0, ⟨50, 0⟩, 0⟩
        ⟨7, FsStatus.used, AdmStatus.unlocked, ⟨3, 10, 40, 5⟩⟩ 10 0
        2).fields.fs_status = true)) :=
  ⟨rfl, rfl,
   lrs_dev_media_update_full ⟨0, 0, ⟨50, 0⟩, 0⟩
     ⟨7, FsStatus.used, AdmStatus.unlocked, ⟨3, 10, 40, 5⟩⟩ 10 0 2
     rfl rfl⟩

/-- C6: on a sync tick, the physical medium sync is invoked exactly when
the last recorded client release code is zero; when it is non-zero, no sync
is performed, that code becomes the tick result, the DSS stats update marks
the medium FAILED with ADM_STATUS in the mask, and a device thread whose
status carries that non-zero code ends with operational status FAILED. -/
theorem dev_sync_client_rc (env : DevSyncEnv) (dev : SyncDev) :
    ((dev_sync env dev).medium_sync_called = true ↔
      dev.last_client_rc = 0) ∧
    (dev.last_client_rc ≠ 0 →
      (dev_sync env dev).rc = dev.last_client_rc ∧
      (dev_sync env dev).update.media.adm_status = AdmStatus.failed ∧
      (dev_sync env dev).update.fields.adm_status = true ∧
      (∀ (eenv : EndEnv) (d : DevState),
        d.thread_status = dev.last_client_rc →
        (dev_thread_end_device eenv d).1.op_status = OpStatus.failed)) := by
  constructor
  · unfold dev_sync
    simp only [decide_eq_true_eq]
  · intro hne
    refine ⟨?_, ?_, ?_, ?_⟩
    · unfold dev_sync
      simp only [if_neg hne]
      split_ifs <;> simp_all
    · unfold dev_sync lrs_dev_media_update
      simp only [if_neg hne]
      split_ifs <;> simp_all
    · unfold dev_sync lrs_dev_media_update
      simp only [if_neg hne]
      split_ifs <;> simp_all
    · intro eenv d hd
      unfold dev_thread_end_device
      have hdne : d.thread_status ≠ 0 := by rw [hd]; exact hne
      simp only [if_neg hdne]
      split_ifs <;> simp_all

/-- C6 witness: a tick whose last client release carried error code -5. -/
theorem dev_sync_client_rc_witness :
    ((dev_sync ⟨0, ⟨0, 0, ⟨50, 20⟩, 0⟩, 0⟩
        ⟨⟨7, FsStatus.used, AdmStatus.unlocked, ⟨3, 10, 40, 5⟩⟩, -5, 10,
          2⟩).medium_sync_called = true ↔ (-5 : Int) = 0) ∧
    ((-5 : Int) ≠ 0 →
      (dev_sync ⟨0, ⟨0, 0, ⟨50, 20⟩, 0⟩, 0⟩
        ⟨⟨7, FsStatus.used, AdmStatus.unlocked, ⟨3, 10, 40, 5⟩⟩, -5, 10,
          2⟩).rc = -5 ∧
      (dev_sync ⟨0, ⟨0, 0, ⟨50, 20⟩, 0⟩, 0⟩
        ⟨⟨7, FsStatus.used, AdmStatus.unlocked, ⟨3, 10, 40, 5⟩⟩, -5, 10,
          2⟩).update.media.adm_status = AdmStatus.failed ∧
      (dev_sync ⟨0, ⟨0, 0, ⟨50, 20⟩, 0⟩, 0⟩
        ⟨⟨7, FsStatus.used, AdmStatus.unlocked, ⟨3, 10, 40, 5⟩⟩, -5, 10,
          2⟩).update.fields.adm_status = true ∧
      (∀ (eenv : EndEnv) (d : DevState),
        d.thread_status = -5 →
        (dev_thread_end_device eenv d).1.op_status = OpStatus.failed)) :=
  dev_sync_client_rc ⟨0, ⟨0, 0, ⟨50, 20⟩, 0⟩, 0⟩
    ⟨⟨7, FsStatus.used, AdmStatus.unlocked, ⟨3, 10, 40, 5⟩⟩, -5, 10, 2⟩

/-- C4: when the library media move returns EINVAL with both the source and
the target located in drives, dev_load returns EBUSY with the can-retry
flag set, and both handlers then return 0 to the main loop, keep the
pending sub-request in its slot, do not requeue it, and emit no response. -/
theorem drive_to_drive_move_retry (lenv : LoadEnv) (dev : DevState)
    (medium : MediaInfo) (rel : Bool)
    (hopen : lenv.lib_open_rc = 0) (hlookup : lenv.lookup_rc = 0)
    (hmove : lenv.move_rc = -EINVAL)
    (hma : lenv.medium_addr_is_drive = true)
    (hda : lenv.dev_addr_is_drive = true) :
    ((dev_load lenv dev medium rel).rc = -EBUSY ∧
     (dev_load lenv dev medium rel).can_retry = true) ∧
    (∀ (fenv : FormatHandlerEnv) (d : DevState) (target : MediaInfo)
      (unlock : Bool),
      fenv.lenv = lenv → d.op_status = OpStatus.empty →
      (dev_handle_format fenv d target unlock).rc = 0 ∧
      (dev_handle_format fenv d target unlock).sub_kept = true ∧
      (dev_handle_format fenv d target unlock).trace.all
        (fun e => !is_response e) = true) ∧
    (∀ (renv : RwHandlerEnv) (d : DevState) (sub : SubRequest)
      (reqc : Reqc) (m : MediaInfo),
      renv.lenv = lenv → d.op_status = OpStatus.empty →
      reqc.rwalloc_rc = 0 →
      (reqc.getMedium sub.medium_index).alloc_medium = some m →
      (dev_handle_read_write renv d sub reqc).rc = 0 ∧
      (dev_handle_read_write renv d sub reqc).sub_kept = true ∧
      (dev_handle_read_write renv d sub reqc).requeued = false ∧
      (dev_handle_read_write renv d sub reqc).trace.all
        (fun e => !is_response e) = true) := by
  have hload : ∀ (d : DevState) (m : MediaInfo) (r : Bool),
      (dev_load lenv d m r).rc = -EBUSY ∧
      (dev_load lenv d m r).can_retry = true ∧
      (dev_load lenv d m r).trace.all (fun e => !is_response e) = true := by
    intro d m r
    unfold dev_load
    simp only [hopen, hlookup, hmove, hma, hda]
    split_ifs <;> simp_all [is_response]
  refine ⟨⟨(hload dev medium rel).1, (hload dev medium rel).2.1⟩, ?_, ?_⟩
  · intro fenv d target unlock hle hop
    have hempty : dev_empty fenv.uenv fenv.ulenv d = (d, [], 0) := by
      unfold dev_empty; simp [hop]
    unfold dev_handle_format
    have hnl : ¬ (d.op_status = OpStatus.loaded ∧
        (d.media.map MediaInfo.name) = some target.name) := by
      intro hc; rw [hop] at hc; exact absurd hc.1 (by decide)
    rw [if_neg hnl, hempty]
    simp only [hle]
    have h1 := hload d target true
    rw [if_neg (by simp : ¬ ((0 : Int) ≠ 0)),
      if_pos ⟨h1.1, h1.2.1⟩]
    simp [h1.2.2]
  · intro renv d sub reqc m hle hop hrc halloc
    unfold dev_handle_read_write
    rw [if_neg (by rw [hrc]; simp : ¬ reqc.rwalloc_rc ≠ 0), halloc]
    have hempty : dev_empty renv.uenv renv.ulenv d = (d, [], 0) := by
      unfold dev_empty; simp [hop]
    rw [hempty]
    simp only [hle]
    have h1 := hload d m false
    rw [if_neg (by simp : ¬ ((0 : Int) ≠ 0)),
      if_pos ⟨h1.1, h1.2.1⟩]
    simp [h1.2.2]

/-- Sample load environment in which the library refuses a drive-to-drive
move with EINVAL. -/
def loadEnvBusy : LoadEnv := ⟨0, 0, true, true, -22, 0, ⟨0, 0⟩, 0⟩

/-- Sample device state with an empty drive. -/
def emptyDev : DevState := ⟨OpStatus.empty, none, false, false, 0⟩

/-- C4 witness: the retry behaviour at a concrete environment. -/
theorem drive_to_drive_move_retry_witness :
    ((dev_load loadEnvBusy emptyDev dummyMedia true).rc = -EBUSY ∧
     (dev_load loadEnvBusy emptyDev dummyMedia true).can_retry = true) ∧
    (∀ (fenv : FormatHandlerEnv) (d : DevState) (target : MediaInfo)
      (unlock : Bool),
      fenv.lenv = loadEnvBusy → d.op_status = OpStatus.empty →
      (dev_handle_format fenv d target unlock).rc = 0 ∧
      (dev_handle_format fenv d target unlock).sub_kept = true ∧
      (dev_handle_format fenv d target unlock).trace.all
        (fun e => !is_response e) = true) ∧
    (∀ (renv : RwHandlerEnv) (d : DevState) (sub : SubRequest)
      (reqc : Reqc) (m : MediaInfo),
      renv.lenv = loadEnvBusy → d.op_status = OpStatus.empty →
      reqc.rwalloc_rc = 0 →
      (reqc.getMedium sub.medium_index).alloc_medium = some m →
      (dev_handle_read_write renv d sub reqc).rc = 0 ∧
      (dev_handle_read_write renv d sub reqc).sub_kept = true ∧
      (dev_handle_read_write renv d sub reqc).requeued = false ∧
      (dev_handle_read_write renv d sub reqc).trace.all
        (fun e => !is_response e) = true) :=
  drive_to_drive_move_retry loadEnvBusy emptyDev dummyMedia true
    (by decide) (by decide) (by decide) (by decide) (by decide)

/-- C5: whenever a medium must be marked FAILED in the DSS (the medium
failure paths of dev_load, of the mount failure and of the thread-end
cleanup all go through fail_release_free_medium) and that update fails, the
medium DSS lock is not released; and when the thread-end device path fails
to mark the device FAILED in the DSS, the device DSS lock is never
successfully released. -/
theorem failed_update_keeps_lock (fenv : FailReleaseEnv)
    (h : fenv.set_failed_rc ≠ 0) :
    (fail_release_free_medium fenv).all
      (fun e => !is_medium_release e) = true ∧
    (∀ (lenv : LoadEnv) (d : DevState) (m : MediaInfo) (r : Bool),
      lenv.fail_env = fenv → lenv.lib_open_rc = 0 →
      (dev_load lenv d m r).trace.all
        (fun e => !is_medium_release e) = true) ∧
    (∀ (eenv : EndEnv) (d : DevState),
      eenv.update_adm_rc ≠ 0 →
      (dev_thread_end_device eenv d).1.thread_status ≠ 0 →
      (dev_thread_end_device eenv d).2.all
        (fun e => !is_device_release_ok e) = true) := by
  have hfr : (fail_release_free_medium fenv).all
      (fun e => !is_medium_release e) = true := by
    unfold fail_release_free_medium
    rw [if_pos h]
    simp [is_medium_release]
  refine ⟨hfr, ?_, ?_⟩
  · intro lenv d m r hfe hopen
    unfold dev_load
    rw [if_neg (by rw [hopen]; simp : ¬ lenv.lib_open_rc ≠ 0)]
    split_ifs <;>
      simp_all [fail_release_free_medium, is_medium_release]
  · intro eenv d hadm hst
    unfold dev_thread_end_device at hst ⊢
    by_cases h0 : d.thread_status = 0
    · by_cases hrel : eenv.release_device_rc = 0
      · exfalso
        apply hst
        simp [h0, hrel]
      · simp only [h0, if_pos rfl, if_neg hrel] at *
        simp [hrel, hadm, is_device_release_ok]
    · simp only [if_neg h0] at *
      simp [h0, hadm, is_device_release_ok]

/-- C5 witness: a FAILED update that fails with code -5 keeps the locks. -/
theorem failed_update_keeps_lock_witness :
    (fail_release_free_medium ⟨-5, 0⟩).all
      (fun e => !is_medium_release e) = true ∧
    (∀ (lenv : LoadEnv) (d : DevState) (m : MediaInfo) (r : Bool),
      lenv.fail_env = (⟨-5, 0⟩ : FailReleaseEnv) → lenv.lib_open_rc = 0 →
      (dev_load lenv d m r).trace.all
        (fun e => !is_medium_release e) = true) ∧
    (∀ (eenv : EndEnv) (d : DevState),
      eenv.update_adm_rc ≠ 0 →
      (dev_thread_end_device eenv d).1.thread_status ≠ 0 →
      (dev_thread_end_device eenv d).2.all
        (fun e => !is_device_release_ok e) = true) :=
  failed_update_keeps_lock ⟨-5, 0⟩ (by decide)

/-- C3 counterexample: in the read-only scenario as claimed (write target
successfully loaded and mounted, df reporting read-only, DSS FS_STATUS
update succeeding), the handler trace contains no DSS medium lock release,
the medium stays loaded and mounted in the device with its status FULL, so
the claim that the worker releases the medium is false at this input. -/
theorem read_only_counterexample :
    (dev_handle_read_write roEnv emptyDev roSub roReqc).trace.all
      (fun e => !is_medium_release e) = true ∧
    (dev_handle_read_write roEnv emptyDev roSub roReqc).dev.media =
      some { roMedium with fs_status := FsStatus.full } ∧
    (dev_handle_read_write roEnv emptyDev roSub roReqc).dev.op_status =
      OpStatus.mounted ∧
    (dev_handle_read_write roEnv emptyDev roSub roReqc).sub.failure_on_medium
      = true ∧
    Event.sub_request_result (-ENOSPC) ∈
      (dev_handle_read_write roEnv emptyDev roSub roReqc).trace := by
  decide

/-- C3 as amended: for a write sub-request whose medium mounts successfully
but whose filesystem df reports read-only, the worker marks the medium FULL
in memory and pushes FS_STATUS to the DSS, sets the failure-on-medium flag,
fails the sub-request with ENOSPC and requeues it to the retry queue for
dispatch to try another medium; the medium is not released and stays
mounted in the device. -/
theorem read_only_write_marks_full (env : RwHandlerEnv) (dev : DevState)
    (sub : SubRequest) (reqc : Reqc) (m : MediaInfo)
    (h1 : reqc.rwalloc_rc = 0)
    (h2 : (reqc.getMedium sub.medium_index).alloc_medium = some m)
    (h3 : dev.op_status = OpStatus.empty)
    (h4 : reqc.is_write = true)
    (h5 : env.lenv.lib_open_rc = 0) (h6 : env.lenv.lookup_rc = 0)
    (h7 : env.lenv.move_rc = 0) (h8 : env.lenv.lib_close_rc = 0)
    (h9 : mount_ok env.menv)
    (h10 : env.writable = false)
    (h11 : env.ro_dss_set_rc = 0) :
    (dev_handle_read_write env dev sub reqc).sub.failure_on_medium = true ∧
    (dev_handle_read_write env dev sub reqc).dev.media =
      some { m with fs_status := FsStatus.full } ∧
    (dev_handle_read_write env dev sub reqc).dev.op_status =
      OpStatus.mounted ∧
    Event.dss_media_set_fs_full 0 ∈
      (dev_handle_read_write env dev sub reqc).trace ∧
    Event.sub_request_result (-ENOSPC) ∈
      (dev_handle_read_write env dev sub reqc).trace ∧
    (dev_handle_read_write env dev sub reqc).requeued = true ∧
    (dev_handle_read_write env dev sub reqc).rc = 0 ∧
    (dev_handle_read_write env dev sub reqc).trace.all
      (fun e => !is_medium_release e) = true := by
  have hempty : dev_empty env.uenv env.ulenv dev = (dev, [], 0) := by
    unfold dev_empty; simp [h3]
  have hload : dev_load env.lenv dev m false =
      { dev := { dev with op_status := OpStatus.loaded, media := some m },
        failure_on_dev := false, failure_on_medium := false,
        can_retry := false, rc := 0,
        trace := [Event.lib_open_call 0, Event.media_lookup_call 0,
          Event.media_move_call 0, Event.set_op_status OpStatus.loaded,
          Event.lib_close_call 0] } := by
    unfold dev_load
    simp [h5, h6, h7, h8, EINVAL]
  have hmount : ∀ d : DevState,
      dev_mount env.menv d =
        ({ d with op_status := OpStatus.mounted, mnt_set := true },
         (dev_mount env.menv d).2.1, 0) ∧
      (dev_mount env.menv d).2.1.all (fun e => !is_medium_release e) =
        true := by
    intro d
    obtain ⟨ha, hb⟩ := h9
    unfold dev_mount
    rcases hb with hb | ⟨hb1, hb2⟩
    · simp [ha, hb, is_medium_release]
    · rcases eq_or_ne env.menv.mounted_rc 0 with hm0 | hm0
      · simp [ha, hm0, is_medium_release]
      · simp [ha, hm0, hb1, hb2, is_medium_release]
  unfold dev_handle_read_write
  rw [if_neg (by rw [h1]; simp : ¬ reqc.rwalloc_rc ≠ 0), h2, hempty]
  simp only
  rw [hload]
  simp only
  norm_num [EBUSY]
  unfold rw_mount_tail
  obtain ⟨hmeq, hmtr⟩ :=
    hmount { dev with op_status := OpStatus.loaded, media := some m }
  rw [hmeq]
  simp only
  norm_num [h4, h10, h11]
  unfold rw_alloc_result handle_rwalloc_sub_request_result
    rwalloc_can_be_requeued
  simp only [Reqc.setMedium, h1, h4]
  norm_num [ENOSPC]
  simp [List.all_append, hmtr, is_medium_release, List.mem_append]
  intro a ha
  have hgoal : is_medium_release a = false := by
    rcases ha with ha | ha | ha | ha
    · have hm := List.all_eq_true.mp hmtr a ha
      simpa using hm
    · subst ha; rfl
    · subst ha; rfl
    · subst ha; rfl
  exact hgoal

/-- C3 witness: the amended statement at the concrete read-only scenario. -/
theorem read_only_write_marks_full_witness :
    (dev_handle_read_write roEnv emptyDev roSub roReqc).sub.failure_on_medium
      = true ∧
    (dev_handle_read_write roEnv emptyDev roSub roReqc).dev.media =
      some { roMedium with fs_status := FsStatus.full } ∧
    (dev_handle_read_write roEnv emptyDev roSub roReqc).dev.op_status =
      OpStatus.mounted ∧
    Event.dss_media_set_fs_full 0 ∈
      (dev_handle_read_write roEnv emptyDev roSub roReqc).trace ∧
    Event.sub_request_result (-ENOSPC) ∈
      (dev_handle_read_write roEnv emptyDev roSub roReqc).trace ∧
    (dev_handle_read_write roEnv emptyDev roSub roReqc).requeued = true ∧
    (dev_handle_read_write roEnv emptyDev roSub roReqc).rc = 0 ∧
    (dev_handle_read_write roEnv emptyDev roSub roReqc).trace.all
      (fun e => !is_medium_release e) = true :=
  read_only_write_marks_full roEnv emptyDev roSub roReqc roMedium
    (by decide) (by decide) (by decide) (by decide) (by decide) (by decide)
    (by decide) (by decide) (by decide) (by decide) (by decide)

/-- C8: each of the four primitive device operations, invoked from its
call-site status, changes the operational status only along the allowed
edges; every status update to a status other than FAILED happens only after
the underlying library or filesystem call of the operation has returned;
and a FAILED device never leaves FAILED through the empty operation, either
request handler, or thread termination. -/
theorem op_status_state_machine :
    (∀ (env : UmountEnv) (dev : DevState),
      dev.op_status = OpStatus.mounted →
      allowed_transition OpStatus.mounted (dev_umount env dev).1.op_status ∧
      set_only_after_call is_umount_call (dev_umount env dev).2.1 = true) ∧
    (∀ (env : UnloadEnv) (dev : DevState),
      dev.op_status = OpStatus.loaded →
      allowed_transition OpStatus.loaded (dev_unload env dev).1.op_status ∧
      set_only_after_call is_move_call (dev_unload env dev).2.1 = true) ∧
    (∀ (env : LoadEnv) (dev : DevState) (m : MediaInfo) (r : Bool),
      dev.op_status = OpStatus.empty →
      allowed_transition OpStatus.empty
        (dev_load env dev m r).dev.op_status ∧
      set_only_after_call is_move_call (dev_load env dev m r).trace = true) ∧
    (∀ (env : MountEnv) (dev : DevState),
      dev.op_status = OpStatus.loaded →
      allowed_transition OpStatus.loaded (dev_mount env dev).1.op_status ∧
      set_only_after_call is_mount_call (dev_mount env dev).2.1 = true) ∧
    (∀ (uenv : UmountEnv) (ulenv : UnloadEnv) (dev : DevState),
      dev.op_status = OpStatus.failed →
      (dev_empty uenv ulenv dev).1.op_status = OpStatus.failed) ∧
    (∀ (fenv : FormatHandlerEnv) (dev : DevState) (target : MediaInfo)
      (unlock : Bool),
      dev.op_status = OpStatus.failed →
      (dev_handle_format fenv dev target unlock).dev.op_status =
        OpStatus.failed) ∧
    (∀ (renv : RwHandlerEnv) (dev : DevState) (sub : SubRequest)
      (reqc : Reqc),
      dev.op_status = OpStatus.failed →
      (dev_handle_read_write renv dev sub reqc).dev.op_status =
        OpStatus.failed) ∧
    (∀ (eenv : EndEnv) (dev : DevState),
      dev.op_status = OpStatus.failed →
      (dev_thread_end eenv dev).1.op_status = OpStatus.failed) := by
  refine ⟨?_, ?_, ?_, ?_, ?_, ?_, ?_, ?_⟩
  · intro env dev h
    unfold dev_umount
    split_ifs <;>
      simp_all [allowed_transition, set_only_after_call, is_umount_call]
  · intro env dev h
    unfold dev_unload
    split_ifs <;>
      simp_all [allowed_transition, set_only_after_call, is_move_call]
  · intro env dev m r h
    unfold dev_load
    split_ifs <;>
      simp_all [allowed_transition, set_only_after_call, is_move_call,
        fail_release_free_medium] <;>
      split_ifs <;>
      simp_all [set_only_after_call, is_move_call]
  · intro env dev h
    unfold dev_mount
    split_ifs <;>
      simp_all [allowed_transition, set_only_after_call, is_mount_call]
  · intro uenv ulenv dev h
    unfold dev_empty
    split_ifs <;> simp_all
  · intro fenv dev target unlock h
    have he : dev_empty fenv.uenv fenv.ulenv dev = (dev, [], -EINVAL) := by
      unfold dev_empty; simp [h]
    unfold dev_handle_format
    rw [if_neg (by rw [h]; rintro ⟨hc, -⟩; cases hc), he]
    simp [EINVAL, h]
  · intro renv dev sub reqc h
    have he : dev_empty renv.uenv renv.ulenv dev = (dev, [], -EINVAL) := by
      unfold dev_empty; simp [h]
    have hpres : ∀ (d : DevState) (s : SubRequest) (q : Reqc) (rc : Int)
        (io fod : Bool) (t : List Event),
        (rw_alloc_result renv d s q rc io fod t).dev.op_status =
          d.op_status := by
      intro d s q rc io fod t
      unfold rw_alloc_result
      dsimp only
      split_ifs <;> rfl
    unfold dev_handle_read_write
    cases halloc : (reqc.getMedium sub.medium_index).alloc_medium with
    | none => split_ifs <;> simp_all [hpres, he, EINVAL]
    | some m => split_ifs <;> simp_all [hpres, he, EINVAL]
  · intro eenv dev h
    have h1 : dev_thread_end_mounted_medium eenv dev = (dev, []) := by
      unfold dev_thread_end_mounted_medium
      rw [if_pos (by rw [h]; decide)]
    have h2 : dev_thread_end_loaded_medium eenv dev = (dev, []) := by
      unfold dev_thread_end_loaded_medium
      rw [if_pos (by rw [h]; decide)]
    have h3 : (dev_thread_end_device eenv dev).1.op_status =
        OpStatus.failed := by
      unfold dev_thread_end_device
      dsimp only
      split_ifs <;> simp_all
    unfold dev_thread_end
    rw [h1]
    dsimp only
    rw [h2]
    dsimp only
    exact h3

/-- C8 witness: the umount edge at a concrete mounted device. -/
theorem op_status_state_machine_witness :
    allowed_transition OpStatus.mounted
      (dev_umount ⟨0, 0, 0⟩
        ⟨OpStatus.mounted, some roMedium, true, false, 0⟩).1.op_status ∧
    set_only_after_call is_umount_call
      (dev_umount ⟨0, 0, 0⟩
        ⟨OpStatus.mounted, some roMedium, true, false, 0⟩).2.1 = true :=
  op_status_state_machine.1 ⟨0, 0, 0⟩
    ⟨OpStatus.mounted, some roMedium, true, false, 0⟩ rfl

/- Helper lemmas about event traces -/

theorem no_p_after_q_of_no_p (p q : Event → Bool) (t : List Event)
    (h : t.all (fun e => !p e) = true) : no_p_after_q p q t = true := by
  induction t with
  | nil => rfl
  | cons e rest ih =>
    simp only [List.all_cons, Bool.and_eq_true] at h
    unfold no_p_after_q
    split_ifs with hq
    · simp only [Bool.and_eq_true]
      exact ⟨h.2, ih h.2⟩
    · exact ih h.2

theorem no_p_after_q_append (p q : Event → Bool) (a b : List Event)
    (ha : a.all (fun e => !q e) = true) (hb : no_p_after_q p q b = true) :
    no_p_after_q p q (a ++ b) = true := by
  induction a with
  | nil => simpa
  | cons e rest ih =>
    simp only [List.all_cons, Bool.and_eq_true] at ha
    simp only [List.cons_append]
    unfold no_p_after_q
    split_ifs with hq
    · exact absurd ha.1 (by simp [hq])
    · exact ih ha.2

theorem mounted_medium_trace_classes (eenv : EndEnv) (dev : DevState) :
    (dev_thread_end_mounted_medium eenv dev).2.all
      (fun e => !is_device_release e && !is_move_call e) = true := by
  unfold dev_thread_end_mounted_medium dev_umount fail_release_free_medium
  dsimp only
  split_ifs <;> simp_all [is_device_release, is_move_call]

theorem loaded_medium_trace_classes (eenv : EndEnv) (dev : DevState) :
    (dev_thread_end_loaded_medium eenv dev).2.all
      (fun e => !is_device_release e && !is_move_call e) = true := by
  unfold dev_thread_end_loaded_medium fail_release_free_medium
  dsimp only
  split_ifs <;> simp_all [is_device_release, is_move_call]

theorem end_device_trace_classes (eenv : EndEnv) (dev : DevState) :
    (dev_thread_end_device eenv dev).2.all
      (fun e => !is_medium_release e && !is_move_call e) = true := by
  unfold dev_thread_end_device
  dsimp only
  split_ifs <;> simp_all [is_medium_release, is_move_call]

theorem release_ok_imp_release (e : Event) :
    is_device_release_ok e = true → is_device_release e = true := by
  cases e <;> simp [is_device_release_ok, is_device_release]

theorem end_device_error_spec (eenv : EndEnv) (d2 : DevState)
    (hne : (dev_thread_end_device eenv d2).1.thread_status ≠ 0) :
    (dev_thread_end_device eenv d2).1.op_status = OpStatus.failed ∧
    Event.dss_set_device_failed eenv.update_adm_rc ∈
      (dev_thread_end_device eenv d2).2 ∧
    (eenv.update_adm_rc ≠ 0 →
      (dev_thread_end_device eenv d2).2.all
        (fun e => !is_device_release_ok e) = true) := by
  by_cases h0 : d2.thread_status = 0
  · by_cases hrel : eenv.release_device_rc = 0
    · exfalso
      apply hne
      unfold dev_thread_end_device
      simp [h0, hrel]
    · unfold dev_thread_end_device
      simp only [h0, if_pos rfl, if_neg hrel]
      split_ifs <;>
        simp_all [is_device_release_ok]
  · unfold dev_thread_end_device
    simp only [if_neg h0]
    split_ifs <;>
      simp_all [is_device_release_ok]

/-- C9: at device-thread termination, a MOUNTED device is unmounted while
the medium stays in the drive and a LOADED medium stays loaded, with the
medium DSS lock released before the device DSS lock on the clean path; the
termination never moves a medium out of the drive and never releases a
medium lock after a device lock; and on any error the device is marked
FAILED in the DSS, the device lock is never successfully released when that
FAILED update fails, and the medium lock is not released when the medium
FAILED update fails. -/
theorem thread_end_lock_discipline :
    (∀ (eenv : EndEnv) (dev : DevState),
      dev.op_status = OpStatus.mounted → dev.thread_status = 0 →
      dev.media.isSome = true →
      eenv.uenv.get_fsa_rc = 0 → eenv.uenv.umount_rc = 0 →
      eenv.uenv.clean_rc = 0 → eenv.release_medium_rc = 0 →
      eenv.release_device_rc = 0 →
      (dev_thread_end eenv dev).2 =
        [Event.fs_umount_call 0, Event.set_op_status OpStatus.loaded,
         Event.dss_release_medium 0, Event.dss_release_device 0] ∧
      (dev_thread_end eenv dev).1.op_status = OpStatus.loaded ∧
      (dev_thread_end eenv dev).1.thread_status = 0) ∧
    (∀ (eenv : EndEnv) (dev : DevState),
      (dev_thread_end eenv dev).2.all (fun e => !is_move_call e) = true) ∧
    (∀ (eenv : EndEnv) (dev : DevState),
      no_p_after_q is_medium_release is_device_release
        (dev_thread_end eenv dev).2 = true) ∧
    (∀ (eenv : EndEnv) (dev : DevState),
      (dev_thread_end eenv dev).1.thread_status ≠ 0 →
      (dev_thread_end eenv dev).1.op_status = OpStatus.failed ∧
      Event.dss_set_device_failed eenv.update_adm_rc ∈
        (dev_thread_end eenv dev).2 ∧
      (eenv.update_adm_rc ≠ 0 →
        (dev_thread_end eenv dev).2.all
          (fun e => !is_device_release_ok e) = true)) ∧
    (∀ (eenv : EndEnv) (dev : DevState),
      eenv.fail_env.set_failed_rc ≠ 0 →
      (dev.thread_status ≠ 0 ∨
       (dev.op_status = OpStatus.mounted ∧ eenv.uenv.umount_rc ≠ 0)) →
      (dev_thread_end eenv dev).2.all
        (fun e => !is_medium_release e) = true) := by
  have htr : ∀ (eenv : EndEnv) (dev : DevState),
      (dev_thread_end eenv dev).2 =
        ((dev_thread_end_mounted_medium eenv dev).2 ++
         (dev_thread_end_loaded_medium eenv
           (dev_thread_end_mounted_medium eenv dev).1).2) ++
        (dev_thread_end_device eenv
          (dev_thread_end_loaded_medium eenv
            (dev_thread_end_mounted_medium eenv dev).1).1).2 := by
    intro eenv dev
    rfl
  have hst : ∀ (eenv : EndEnv) (dev : DevState),
      (dev_thread_end eenv dev).1 =
        (dev_thread_end_device eenv
          (dev_thread_end_loaded_medium eenv
            (dev_thread_end_mounted_medium eenv dev).1).1).1 := by
    intro eenv dev
    rfl
  refine ⟨?_, ?_, ?_, ?_, ?_⟩
  · intro eenv dev hop hth hms hfsa hum hcl hrm hrd
    have h1 : dev_thread_end_mounted_medium eenv dev =
        ({ dev with op_status := OpStatus.loaded, mnt_set := false },
         [Event.fs_umount_call 0, Event.set_op_status OpStatus.loaded]) := by
      unfold dev_thread_end_mounted_medium dev_umount
      simp [hop, hth, hfsa, hum, hcl]
    have h2 : dev_thread_end_loaded_medium eenv
        { dev with op_status := OpStatus.loaded, mnt_set := false } =
        ({ dev with op_status := OpStatus.loaded, mnt_set := false,
                    media := none },
         [Event.dss_release_medium 0]) := by
      unfold dev_thread_end_loaded_medium
      simp [hth, hrm]
    have h3 : dev_thread_end_device eenv
        { dev with op_status := OpStatus.loaded, mnt_set := false,
                   media := none } =
        ({ dev with op_status := OpStatus.loaded, mnt_set := false,
                    media := none, ongoing_io := false },
         [Event.dss_release_device 0]) := by
      unfold dev_thread_end_device
      simp [hth, hrd]
    rw [htr, hst, h1]
    dsimp only
    rw [h2]
    dsimp only
    rw [h3]
    exact ⟨rfl, rfl, hth⟩
  · intro eenv dev
    rw [htr]
    simp only [List.all_append, Bool.and_eq_true]
    have c1 := List.all_eq_true.mp (mounted_medium_trace_classes eenv dev)
    have c2 := List.all_eq_true.mp (loaded_medium_trace_classes eenv
      (dev_thread_end_mounted_medium eenv dev).1)
    have c3 := List.all_eq_true.mp (end_device_trace_classes eenv
      (dev_thread_end_loaded_medium eenv
        (dev_thread_end_mounted_medium eenv dev).1).1)
    refine ⟨⟨?_, ?_⟩, ?_⟩ <;>
      (apply List.all_eq_true.mpr; intro x hx)
    · have := c1 x hx; simp only [Bool.and_eq_true] at this; exact this.2
    · have := c2 x hx; simp only [Bool.and_eq_true] at this; exact this.2
    · have := c3 x hx; simp only [Bool.and_eq_true] at this; exact this.2
  · intro eenv dev
    rw [htr]
    apply no_p_after_q_append
    · apply List.all_eq_true.mpr
      intro x hx
      rcases List.mem_append.mp hx with hx | hx
      · have := List.all_eq_true.mp
          (mounted_medium_trace_classes eenv dev) x hx
        simp only [Bool.and_eq_true] at this
        exact this.1
      · have := List.all_eq_true.mp
          (loaded_medium_trace_classes eenv
            (dev_thread_end_mounted_medium eenv dev).1) x hx
        simp only [Bool.and_eq_true] at this
        exact this.1
    · apply no_p_after_q_of_no_p
      apply List.all_eq_true.mpr
      intro x hx
      have := List.all_eq_true.mp
        (end_device_trace_classes eenv
          (dev_thread_end_loaded_medium eenv
            (dev_thread_end_mounted_medium eenv dev).1).1) x hx
      simp only [Bool.and_eq_true] at this
      exact this.1
  · intro eenv dev hne
    rw [hst] at hne
    obtain ⟨ha, hb, hc⟩ := end_device_error_spec eenv
      (dev_thread_end_loaded_medium eenv
        (dev_thread_end_mounted_medium eenv dev).1).1 hne
    refine ⟨by rw [hst]; exact ha, ?_, ?_⟩
    · rw [htr]
      exact List.mem_append.mpr (Or.inr hb)
    · intro hadm
      rw [htr]
      simp only [List.all_append, Bool.and_eq_true]
      have hok : ∀ (t : List Event),
          t.all (fun e => !is_device_release e) = true →
          t.all (fun e => !is_device_release_ok e) = true := by
        intro t ht
        apply List.all_eq_true.mpr
        intro x hx
        have hrel := List.all_eq_true.mp ht x hx
        by_cases hco : is_device_release_ok x = true
        · exact absurd (release_ok_imp_release x hco) (by simpa using hrel)
        · simpa using hco
      refine ⟨⟨?_, ?_⟩, hc hadm⟩
      · apply hok
        apply List.all_eq_true.mpr
        intro x hx
        have := List.all_eq_true.mp
          (mounted_medium_trace_classes eenv dev) x hx
        simp only [Bool.and_eq_true] at this
        exact this.1
      · apply hok
        apply List.all_eq_true.mpr
        intro x hx
        have := List.all_eq_true.mp
          (loaded_medium_trace_classes eenv
            (dev_thread_end_mounted_medium eenv dev).1) x hx
        simp only [Bool.and_eq_true] at this
        exact this.1
  · intro eenv dev hfail herr
    rw [htr]
    simp only [List.all_append, Bool.and_eq_true]
    have hm : ∀ (d : DevState),
        d.thread_status ≠ 0 →
        (dev_thread_end_loaded_medium eenv d).2.all
            (fun e => !is_medium_release e) = true ∧
        (dev_thread_end_loaded_medium eenv d).1.thread_status ≠ 0 := by
      intro d hd
      unfold dev_thread_end_loaded_medium fail_release_free_medium
      dsimp only
      split_ifs <;> simp_all [is_medium_release]
    have hmm : (dev_thread_end_mounted_medium eenv dev).2.all
          (fun e => !is_medium_release e) = true ∧
        (dev_thread_end_mounted_medium eenv dev).1.thread_status ≠ 0 := by
      rcases herr with herr | ⟨hmo, hur⟩
      · unfold dev_thread_end_mounted_medium dev_umount
          fail_release_free_medium
        dsimp only
        split_ifs <;> simp_all [is_medium_release]
      · unfold dev_thread_end_mounted_medium dev_umount
          fail_release_free_medium
        dsimp only
        split_ifs <;> simp_all [is_medium_release]
    obtain ⟨hm2, hs2⟩ := hm _ hmm.2
    refine ⟨⟨hmm.1, hm2⟩, ?_⟩
    apply List.all_eq_true.mpr
    intro x hx
    have := List.all_eq_true.mp
      (end_device_trace_classes eenv
        (dev_thread_end_loaded_medium eenv
          (dev_thread_end_mounted_medium eenv dev).1).1) x hx
    simp only [Bool.and_eq_true] at this
    exact this.1

/-- C9 witness: the clean termination sequence at a concrete mounted
device with every external call succeeding. -/
theorem thread_end_lock_discipline_witness :
    (dev_thread_end ⟨⟨0, 0, 0⟩, ⟨0, 0⟩, 0, 0, 0, 0, 0⟩
        ⟨OpStatus.mounted, some roMedium, true, false, 0⟩).2 =
      [Event.fs_umount_call 0, Event.set_op_status OpStatus.loaded,
       Event.dss_release_medium 0, Event.dss_release_device 0] ∧
    (dev_thread_end ⟨⟨0, 0, 0⟩, ⟨0, 0⟩, 0, 0, 0, 0, 0⟩
        ⟨OpStatus.mounted, some roMedium, true, false, 0⟩).1.op_status =
      OpStatus.loaded ∧
    (dev_thread_end ⟨⟨0, 0, 0⟩, ⟨0, 0⟩, 0, 0, 0, 0, 0⟩
        ⟨OpStatus.mounted, some roMedium, true, false, 0⟩).1.thread_status =
      0 :=
  thread_end_lock_discipline.1 ⟨⟨0, 0, 0⟩, ⟨0, 0⟩, 0, 0, 0, 0, 0⟩
    ⟨OpStatus.mounted, some roMedium, true, false, 0⟩
    rfl rfl rfl rfl rfl rfl rfl rfl

/- Helper lemmas about the tosync-array cleanup -/

theorem clean_one_other (rcArg : Int) (store : Store) (sub : TosyncSub)
    (q : Nat) (hq : q ≠ sub.parent) :
    (clean_one rcArg store sub).1 q = store q := by
  unfold clean_one store_set
  split_ifs <;> simp [hq]

theorem clean_one_events_other (rcArg : Int) (store : Store)
    (sub : TosyncSub) (p : Nat) (hp : p ≠ sub.parent) :
    count_error_resp p (clean_one rcArg store sub).2 = 0 := by
  unfold clean_one count_error_resp
  split_ifs <;> simp_all [List.countP_cons, List.countP_nil] <;>
    (intro _; omega)

theorem clean_one_error_case (rcArg : Int) (store : Store) (sub : TosyncSub)
    (hrc : rcArg ≠ 0) :
    ((clean_one rcArg store sub).1 sub.parent).rc ≠ 0 ∧
    ((store sub.parent).rc ≠ 0 →
      count_error_resp sub.parent (clean_one rcArg store sub).2 = 0) ∧
    count_error_resp sub.parent (clean_one rcArg store sub).2 ≤ 1 := by
  unfold clean_one store_set count_error_resp set_tosync_status
  rw [if_neg hrc]
  dsimp only
  split_ifs <;>
    simp_all [List.countP_cons, List.countP_nil, List.countP_append]

theorem clean_list_error_bound (rcArg : Int) (hrc : rcArg ≠ 0) (p : Nat) :
    ∀ (l : List TosyncSub) (store : Store),
      count_error_resp p (clean_list rcArg l store).2 ≤ 1 ∧
      ((store p).rc ≠ 0 →
        count_error_resp p (clean_list rcArg l store).2 = 0) := by
  intro l
  induction l with
  | nil =>
    intro store
    simp [clean_list, count_error_resp]
  | cons sub rest ih =>
    intro store
    have hsplit : (clean_list rcArg (sub :: rest) store).2 =
        (clean_one rcArg store sub).2 ++
        (clean_list rcArg rest (clean_one rcArg store sub).1).2 := rfl
    have hadd : count_error_resp p (clean_list rcArg (sub :: rest) store).2 =
        count_error_resp p (clean_one rcArg store sub).2 +
        count_error_resp p
          (clean_list rcArg rest (clean_one rcArg store sub).1).2 := by
      rw [hsplit]
      unfold count_error_resp
      exact List.countP_append _ _ _
    by_cases hp : p = sub.parent
    · subst hp
      obtain ⟨h1, h2, h3⟩ := clean_one_error_case rcArg store sub hrc
      have hrest :=
        (ih (clean_one rcArg store sub).1).2 h1
      constructor
      · rw [hadd, hrest]
        omega
      · intro h0
        rw [hadd, hrest, h2 h0]
    · have hzero := clean_one_events_other rcArg store sub p hp
      have hkeep := clean_one_other rcArg store sub p hp
      constructor
      · rw [hadd, hzero]
        have := (ih (clean_one rcArg store sub).1).1
        omega
      · intro h0
        rw [hadd, hzero]
        have := (ih (clean_one rcArg store sub).1).2 (by rw [hkeep]; exact h0)
        omega

/-- C10: clean_tosync_array leaves the pending-sync state of the device
fully drained (empty tosync array, zero cumulative size, oldest time reset,
needs-sync flag cleared), and when invoked with a non-zero code, at most one
error response is queued per parent request, and none for a parent whose
error was already recorded. -/
theorem clean_tosync_array_drains (rcArg : Int) (dev : DevTosyncState)
    (store : Store) :
    (clean_tosync_array rcArg dev store).1.tosync_array = [] ∧
    (clean_tosync_array rcArg dev store).1.tosync_size = 0 ∧
    (clean_tosync_array rcArg dev store).1.oldest_tosync = ⟨0, 0⟩ ∧
    (clean_tosync_array rcArg dev store).1.needs_sync = false ∧
    (rcArg ≠ 0 → ∀ p : Nat,
      count_error_resp p (clean_tosync_array rcArg dev store).2.2 ≤ 1 ∧
      ((store p).rc ≠ 0 →
        count_error_resp p (clean_tosync_array rcArg dev store).2.2 = 0)) := by
  refine ⟨rfl, rfl, rfl, rfl, ?_⟩
  intro h p
  exact clean_list_error_bound rcArg h p dev.tosync_array.reverse store

/-- C10 witness: draining a concrete two-entry array that shares one parent
with error code -5 queues exactly at most one error response per parent. -/
theorem clean_tosync_array_drains_witness :
    (clean_tosync_array (-5)
        ⟨[⟨0, 0⟩, ⟨0, 1⟩], 7, ⟨3, 0⟩, true⟩
        (fun _ => ⟨0, [dummyTosync, dummyTosync]⟩)).1.tosync_array = [] ∧
    (clean_tosync_array (-5)
        ⟨[⟨0, 0⟩, ⟨0, 1⟩], 7, ⟨3, 0⟩, true⟩
        (fun _ => ⟨0, [dummyTosync, dummyTosync]⟩)).1.tosync_size = 0 ∧
    (clean_tosync_array (-5)
        ⟨[⟨0, 0⟩, ⟨0, 1⟩], 7, ⟨3, 0⟩, true⟩
        (fun _ => ⟨0, [dummyTosync, dummyTosync]⟩)).1.oldest_tosync =
      ⟨0, 0⟩ ∧
    (clean_tosync_array (-5)
        ⟨[⟨0, 0⟩, ⟨0, 1⟩], 7, ⟨3, 0⟩, true⟩
        (fun _ => ⟨0, [dummyTosync, dummyTosync]⟩)).1.needs_sync = false ∧
    ((-5 : Int) ≠ 0 → ∀ p : Nat,
      count_error_resp p
        (clean_tosync_array (-5)
          ⟨[⟨0, 0⟩, ⟨0, 1⟩], 7, ⟨3, 0⟩, true⟩
          (fun _ => ⟨0, [dummyTosync, dummyTosync]⟩)).2.2 ≤ 1 ∧
      (((fun (_ : Nat) =>
          (⟨0, [dummyTosync, dummyTosync]⟩ : ReleaseParams)) p).rc ≠ 0 →
        count_error_resp p
          (clean_tosync_array (-5)
            ⟨[⟨0, 0⟩, ⟨0, 1⟩], 7, ⟨3, 0⟩, true⟩
            (fun _ => ⟨0, [dummyTosync, dummyTosync]⟩)).2.2 = 0)) :=
  clean_tosync_array_drains (-5) ⟨[⟨0, 0⟩, ⟨0, 1⟩], 7, ⟨3, 0⟩, true⟩
    (fun _ => ⟨0, [dummyTosync, dummyTosync]⟩)

end Phobos
